import Mathlib

/-!
Verification development for the `pybot` flash-loan arbitrage engine
(`src/pybot/*.py`).  The Python sources are shallowly embedded: pure value
computations become Lean functions, Python `float` becomes `ℚ`, Python `int`
becomes `ℤ`/`ℕ` (with `Int.fdiv` for Python floor division `//` and a
truncation helper for `int(...)`), raising an exception becomes `Option.none`
or `Except.error`, and all network I/O (RPC, HTTP quote fetches) is abstracted
into explicit oracle parameters supplying the values the Python code would
have read.
-/

namespace Pybot

/-- Python `int(x)` applied to a float value: truncation toward zero. -/
def py_int (q : ℚ) : ℤ := if q < 0 then ⌈q⌉ else ⌊q⌋

/-- Python `str.upper()` restricted to the ASCII range (all strings the bot
compares are ASCII mint addresses and token symbols). -/
def upper (s : String) : String := ⟨s.data.map Char.toUpper⟩

/-- Python `str.split(sep)` for a one-character separator, on the character
list of the string. -/
def split_chars (sep : Char) : List Char → List (List Char)
  | [] => [[]]
  | c :: cs =>
    if c = sep then [] :: split_chars sep cs
    else
      match split_chars sep cs with
      | [] => [[c]]
      | h :: t => (c :: h) :: t

/-- Python `s.split(sep)` for a one-character separator. -/
def split_on_char (s : String) (sep : Char) : List String :=
  (split_chars sep s.data).map (fun l => ⟨l⟩)

/-- Python `s[:n]` (strings are sequences of code points). -/
def str_take (s : String) (n : ℕ) : String := ⟨s.data.take n⟩

/-! ### tokens.py -/

/-- `tokens.WELL_KNOWN_MINTS`: symbol → mint address. -/
def WELL_KNOWN_MINTS : List (String × String) := [
  ("SOL", "So11111111111111111111111111111111111111112"),
  ("USDC", "EPjFWdd5AufqSSqeM2qN1xzybapC8G4wEGGkZwyTDt1v"),
  ("USDT", "Es9vMFrzaCERmJfrF4H2FYD4KCoNkY11McCe8BenwNYB"),
  ("JUP", "JUPyiwrYJFskUPiHa7hkeR8VUtAeFoSYbKedZNsDvCN"),
  ("RAY", "4k3Dyjzvzp8eMZWUXbBCjEvwSkkk59S5iCNLY3QrkX6R"),
  ("ORCA", "orcaEKTdK7LKz57vaAYr9QeNsVEPfiu6QeMU1kektZE"),
  ("PYTH", "HZ1JovNiVvGrGNiiYvEozEVgZ58xaU3RKwX8eACQBCt3"),
  ("RENDER", "rndrizKT3MK1iimdxRdWabcF7Zg7AR5T4nud4EkHBof"),
  ("HNT", "hntyVP6YFm1Hg25TN9WGLqM12b8TQmcknKrdu1oxWux"),
  ("W", "85VBFQZC9TZkfaptBWjvUw7YbZjy52A6mjtPGjstQAmQ"),
  ("TNSR", "TNSRxcUxoT9xBG3de7PiJyTDYu7kskLqcpddxnEJAS6"),
  ("JTO", "jtojtomepa8beP8AuQc6eXt5FriJwfFMwQx2v2f9mCL"),
  ("MSOL", "mSoLzYCxHdYgdzU16g5QSh3i5K3z3KZK7ytfqcJm7So"),
  ("JITOSOL", "J1toso1uCk3RLmjorhTtrVwY9HJ7X8V9yYac6Y7kGCPn"),
  ("BSOL", "bSo13r4TkiE4KumL71LsHTPpL2euBYLFx6h9HP3piy1"),
  ("INF", "5oVNBeEEQvYi1cX3ir8Dx5n1P7pdxydbGF2X4TxVusJm"),
  ("BONK", "DezXAZ8z7PnrnRJjz3wXBoRgixCa6xjnB7YaB1pPB263"),
  ("WIF", "EKpQGSJtjMFqKZ9KQanSqYXRcF8fBopzLHYxdM65zcjm"),
  ("POPCAT", "7GCihgDB8fe6KNjn2MYtkzZcRjQy3t9GHdC8uHYmW2hr"),
  ("MEW", "MEW1gQWJ3nEXg2qgERiKu7FAFj79PHvQVREQUzScPP5"),
  ("TRUMP", "6p6xgHyF7AeE6TZkSmFsko444wqoP15icUSqi2jfGiPN"),
  ("FARTCOIN", "9BB6NFEcjBCtnNLFko2FqVQBq8HHM13kCyYcdQbgpump"),
  ("KMNO", "KMNo3nJsBXfcpJTVhZcXLW7RmTwTt4GVFE7suUBo9sS"),
  ("DRIFT", "DriFtupJYLTosbwoN8koMbEYSx54aFAVLddWsbksjwg7"),
  ("SAMO", "7xKXtg2CW87d97TXJSDpbD5jBkheTqA83TZRuJosgAsU"),
  ("MNDE", "MNDEFzGvMt87ueuHvVU9VcTqsAP5b3fTGPsHuuPA5ey"),
  ("STEP", "StepAscQoEioFxxWGnh2sLBDFp9d8rvKz2Yp39iDpyT"),
  ("SHDW", "SHDWyBxihqiCj6YekG2GUr7wqKLeLAMK1gHZck9pL6y"),
  ("DUST", "DUSTawucrTsGU8hcqRdHDCbuYhCPADMLM2VcCb8VnFnQ"),
  ("BLZE", "BLZEEuZUBVqFhj8adcCFPJvPVCiCyVmh3hkJMrU8KuJA"),
  ("ZEUS", "ZEUS1aR7aX8DFFJf5QjWj2ftDDdNTroMNGo8YoQm3Gq"),
  ("WEN", "WENWENvqqNya429ubCdR81ZmD69brwQaaBYY6p3LCpk"),
  ("BOME", "ukHH6c7mMyiWCf1b9pnWe25TSpkDDt3H5pQZgZ74J82"),
  ("SLERF", "7BgBvyjrZX1YKz4oh9mjb8ZScatkkwb8DzFx7LoiVkM3"),
  ("SILLY", "7EYnhQoR9YM3N7UoaKRoA44Uy8JeaZV3qyouov87awMs"),
  ("AI16Z", "HeLp6NuQkmYB4pYWo2zYs22mESHXPQYzXbB8n4V98jwC")]

/-- `tokens.PAIR_BORROW_OVERRIDES`: first 8 characters of the target mint →
borrow amount in USDC base units (0 = use default). -/
def PAIR_BORROW_OVERRIDES : List (String × ℕ) := [
  ("So111111", 0),
  ("Es9vMFrz", 0),
  ("JUPyiwrY", 100000000),
  ("4k3Dyjzv", 100000000),
  ("orcaEKTd", 100000000),
  ("mSoLzYCx", 100000000),
  ("J1toso1u", 100000000),
  ("jtojtome", 100000000),
  ("rndrizKT", 100000000),
  ("85VBFQZC", 100000000),
  ("EKpQGSJt", 50000000),
  ("HZ1JovNi", 50000000),
  ("hntyVP6Y", 50000000),
  ("TNSRxcUx", 50000000),
  ("bSo13r4T", 50000000),
  ("5oVNBeEE", 50000000),
  ("KMNo3nJs", 50000000),
  ("DriFtupJ", 50000000),
  ("DezXAZ8z", 20000000),
  ("7GCihgDB", 20000000),
  ("MEW1gQWJ", 20000000),
  ("6p6xgHyF", 20000000),
  ("9BB6NFEc", 20000000),
  ("ukHH6c7m", 20000000),
  ("7BgBvyjr", 20000000),
  ("WENWENvq", 20000000),
  ("7xKXtg2C", 10000000),
  ("MNDEFzGv", 10000000),
  ("StepAscQ", 10000000),
  ("SHDWyBxi", 10000000),
  ("DUSTawuc", 10000000),
  ("BLZEEuZU", 10000000),
  ("ZEUS1aR7", 10000000),
  ("7EYnhQoR", 10000000),
  ("HeLp6NuQ", 10000000)]

/-- `tokens.resolve_mint`. -/
def resolve_mint (symbol_or_mint : String) : String :=
  (WELL_KNOWN_MINTS.lookup (upper symbol_or_mint)).getD symbol_or_mint

/-- `tokens.parse_pair`: parse `TARGET/QUOTE` into `(target_mint, quote_mint)`;
the Python raises `ValueError` (here: `none`) unless the split has exactly two
parts. -/
def parse_pair (pair : String) : Option (String × String) :=
  match split_on_char pair '/' with
  | [a, b] => some (resolve_mint a, resolve_mint b)
  | _ => none

/-- `tokens.get_borrow_override`. -/
def get_borrow_override (target_mint : String) : ℕ :=
  (PAIR_BORROW_OVERRIDES.lookup (str_take target_mint 8)).getD 0

/-! ### pool_decoder.py: the unified pool-state record -/

/-- `pool_decoder.PoolState` (decoded fields; `float` price modelled as `ℚ`). -/
structure PoolState where
  pool_address : String
  dex : String
  token_mint_a : String
  token_mint_b : String
  token_vault_a : String
  token_vault_b : String
  price : ℚ
  liquidity : ℕ
  sqrt_price_x64 : ℕ := 0
  reserve_a : ℕ := 0
  reserve_b : ℕ := 0
  tick : ℤ := 0
  fee_rate : ℕ := 0
deriving DecidableEq, Repr

/-! ### cross_dex_scanner.py

The scanners import `decimals_for_mint` from `tokens`, but no function of
that name is present in the sources; the embedding therefore abstracts it as
an explicit parameter `decs : String → ℤ` (mint → decimal exponent).  None of
the properties proved below depend on its values. -/

/-- `cross_dex_scanner.CrossDexOpportunity`. -/
structure CrossDexOpportunity where
  pair : String
  token_a : String
  token_b : String
  borrow_amount : ℕ
  buy_pool : PoolState
  sell_pool : PoolState
  buy_price : ℚ
  sell_price : ℚ
  spread_bps : ℤ
  estimated_profit_bps : ℤ
  source : String := "cross_dex"
deriving DecidableEq, Repr

/-- Scanner configuration (the constructor arguments of
`cross_dex_scanner.CrossDexScanner`). -/
structure CrossDexScanner where
  pool_fee_bps : ℤ := 9
  min_spread_bps : ℤ := 15
deriving DecidableEq, Repr

/-- `CrossDexScanner._normalize_price`: normalize a pool price to
quote-per-target. -/
def normalize_price (decs : String → ℤ) (state : PoolState)
    (quote_mint target_mint : String) : Option ℚ :=
  let mint_a := state.token_mint_a
  let mint_b := state.token_mint_b
  if ¬((mint_a = target_mint ∧ mint_b = quote_mint) ∨
       (mint_a = quote_mint ∧ mint_b = target_mint)) then none
  else if state.dex = "raydium_v4" then none
  else
    let price : ℚ :=
      if state.dex = "orca" ∧ 0 < state.sqrt_price_x64 then
        ((state.sqrt_price_x64 : ℚ) / 2 ^ 64) ^ 2 *
          (10 : ℚ) ^ (decs mint_a - decs mint_b)
      else if state.dex = "meteora" then
        state.price * (10 : ℚ) ^ (decs mint_a - decs mint_b)
      else state.price
    if price ≤ 0 then none
    else if mint_a = target_mint ∧ mint_b = quote_mint then some price
    else if mint_a = quote_mint ∧ mint_b = target_mint then some (1 / price)
    else none

/-- The `normalized` list built inside `CrossDexScanner.scan_pair`:
pools with a positive decoded price, paired with their positive normalized
quote-per-target price. -/
def normalized_pools (decs : String → ℤ) (quote_mint target_mint : String)
    (states : List PoolState) : List (PoolState × ℚ) :=
  (states.filter (fun s => 0 < s.price)).filterMap (fun s =>
    (normalize_price decs s quote_mint target_mint).bind (fun p =>
      if 0 < p then some (s, p) else none))

/-- Ascending comparison on normalized `(pool, price)` entries
(`normalized.sort(key=lambda x: x[1])`). -/
def price_le (x y : PoolState × ℚ) : Prop := x.2 ≤ y.2

instance : DecidableRel price_le :=
  fun x y => inferInstanceAs (Decidable (x.2 ≤ y.2))

instance : IsTotal (PoolState × ℚ) price_le := ⟨fun a b => le_total a.2 b.2⟩

instance : IsTrans (PoolState × ℚ) price_le :=
  ⟨fun _ _ _ hab hbc => le_trans hab hbc⟩

/-- `CrossDexScanner.scan_pair`.  The pool states the registry would fetch
over RPC are passed in as `states`; the `best_spreads` bookkeeping (which does
not influence the returned value) is not modelled. -/
def CrossDexScanner.scan_pair (self : CrossDexScanner) (decs : String → ℤ)
    (pair : String) (default_borrow : ℕ) (states : List PoolState) :
    Option CrossDexOpportunity :=
  match parse_pair pair with
  | none => none
  | some (target_mint, quote_mint) =>
    if states.length < 2 then none
    else if ((states.filter (fun s => 0 < s.price)).length) < 2 then none
    else if (normalized_pools decs quote_mint target_mint states).length < 2 then
      none
    else
      match (List.insertionSort price_le
               (normalized_pools decs quote_mint target_mint states)).head?,
            (List.insertionSort price_le
               (normalized_pools decs quote_mint target_mint states)).getLast? with
      | some cheapest, some dearest =>
        if 500 < py_int ((dearest.2 - cheapest.2) / cheapest.2 * 10000) then none
        else if self.min_spread_bps ≤
            py_int ((dearest.2 - cheapest.2) / cheapest.2 * 10000) then
          some { pair := pair, token_a := quote_mint,
                 token_b := target_mint,
                 borrow_amount :=
                   if 0 < get_borrow_override target_mint then
                     get_borrow_override target_mint
                   else default_borrow,
                 buy_pool := cheapest.1, sell_pool := dearest.1,
                 buy_price := cheapest.2, sell_price := dearest.2,
                 spread_bps := py_int ((dearest.2 - cheapest.2) / cheapest.2 * 10000),
                 estimated_profit_bps :=
                   py_int ((dearest.2 - cheapest.2) / cheapest.2 * 10000) -
                     (self.pool_fee_bps + 60 + 2) }
        else none
      | _, _ => none

/-- Everything `scan_pair` guarantees about an emitted opportunity, read off
the branch structure of the source. -/
theorem scan_pair_inv {self : CrossDexScanner} {decs : String → ℤ}
    {pair : String} {default_borrow : ℕ} {states : List PoolState}
    {o : CrossDexOpportunity}
    (h : self.scan_pair decs pair default_borrow states = some o) :
    ∃ target_mint quote_mint,
      parse_pair pair = some (target_mint, quote_mint) ∧
      2 ≤ (normalized_pools decs quote_mint target_mint states).length ∧
      ∃ c d : PoolState × ℚ,
        (List.insertionSort price_le
          (normalized_pools decs quote_mint target_mint states)).head? = some c ∧
        (List.insertionSort price_le
          (normalized_pools decs quote_mint target_mint states)).getLast? = some d ∧
        o.buy_pool = c.1 ∧ o.sell_pool = d.1 ∧
        o.buy_price = c.2 ∧ o.sell_price = d.2 ∧
        o.spread_bps = py_int ((d.2 - c.2) / c.2 * 10000) ∧
        o.spread_bps ≤ 500 ∧ self.min_spread_bps ≤ o.spread_bps ∧
        o.estimated_profit_bps = o.spread_bps - (self.pool_fee_bps + 60 + 2) := by
  unfold CrossDexScanner.scan_pair at h
  split at h
  · exact absurd h (by simp)
  next tm qm hpp =>
    refine ⟨tm, qm, hpp, ?_⟩
    split at h
    · exact absurd h (by simp)
    split at h
    · exact absurd h (by simp)
    split at h
    · exact absurd h (by simp)
    next hlen =>
    refine ⟨by omega, ?_⟩
    split at h
    · next c d hc hd =>
      refine ⟨c, d, hc, hd, ?_⟩
      split at h
      · exact absurd h (by simp)
      split at h
      · simp only [Option.some.injEq] at h
        subst h
        simp_all
      · exact absurd h (by simp)
    · exact absurd h (by simp)

/-- In a list sorted by normalized price, the head price is at most the last
price. -/
theorem sorted_head?_le_getLast? {l : List (PoolState × ℚ)}
    (hs : List.Sorted price_le l) {c d : PoolState × ℚ}
    (hc : l.head? = some c) (hd : l.getLast? = some d) : c.2 ≤ d.2 := by
  cases l with
  | nil => simp at hc
  | cons a t =>
    simp only [List.head?_cons, Option.some.injEq] at hc
    subst hc
    rcases List.mem_cons.mp (List.mem_of_mem_getLast? (Option.mem_def.mpr hd)) with
      hda | hdt
    · exact le_of_eq (congrArg Prod.snd hda.symm)
    · exact (List.sorted_cons.mp hs).1 d hdt

/-- Each entry of the normalized list is one of the scanned pool states. -/
theorem normalized_pools_mem {decs : String → ℤ} {quote_mint target_mint : String}
    {states : List PoolState} {x : PoolState × ℚ}
    (hx : x ∈ normalized_pools decs quote_mint target_mint states) :
    x.1 ∈ states := by
  simp only [normalized_pools, List.mem_filterMap, Option.bind_eq_some] at hx
  obtain ⟨s, hs, p, hp, hif⟩ := hx
  split at hif
  · cases hif
    exact List.mem_of_mem_filter hs
  · cases hif

/-- The underlying pool states of the normalized list form a sublist of the
positively priced pool states. -/
theorem normalized_pools_fst_sublist (decs : String → ℤ)
    (quote_mint target_mint : String) (states : List PoolState) :
    List.Sublist ((normalized_pools decs quote_mint target_mint states).map Prod.fst)
      (states.filter (fun s => 0 < s.price)) := by
  unfold normalized_pools
  generalize states.filter (fun s => 0 < s.price) = l
  induction l with
  | nil => simp
  | cons a t ih =>
    simp only [List.filterMap_cons]
    split
    · exact ih.cons a
    · next x heq =>
      obtain ⟨p, hp, hx⟩ := Option.bind_eq_some.mp heq
      have hfst : x.1 = a := by
        split at hx
        · cases hx; rfl
        · cases hx
      simpa [hfst] using ih.cons₂ a

/-- With pairwise-distinct input pool addresses, the head and last entries of
the sorted normalized list (of length ≥ 2) are different pools. -/
theorem head_getLast_addr_ne {l : List (PoolState × ℚ)} {c d : PoolState × ℚ}
    (hnd : (l.map (fun x => x.1.pool_address)).Nodup) (hlen : 2 ≤ l.length)
    (hc : l.head? = some c) (hd : l.getLast? = some d) :
    c.1.pool_address ≠ d.1.pool_address := by
  cases l with
  | nil => simp at hc
  | cons a t =>
    cases t with
    | nil => simp at hlen
    | cons b t2 =>
      simp only [List.head?_cons, Option.some.injEq] at hc
      subst hc
      have hne : b :: t2 ≠ [] := by simp
      have hgl : (a :: b :: t2).getLast (by simp) = (b :: t2).getLast hne :=
        List.getLast_cons hne
      rw [List.getLast?_eq_getLast_of_ne_nil (by simp), Option.some.injEq] at hd
      have hdm : d ∈ b :: t2 := by
        rw [← hd, hgl]
        exact List.getLast_mem hne
      simp only [List.map_cons, List.nodup_cons, List.mem_cons, List.mem_map] at hnd
      intro heq
      exact hnd.1 (by
        rcases List.mem_cons.mp hdm with h1 | h2
        · exact Or.inl (by rw [heq, h1])
        · exact Or.inr ⟨d, h2, heq.symm⟩)

/-- C1 (amended): whenever `CrossDexScanner.scan_pair` returns an opportunity,
its buy pool and sell pool are drawn from the scanned pool states with
`buy_price ≤ sell_price`, and — when the scanned pool addresses are pairwise
distinct — they are two different pools.  The scanner performs no same-venue
refusal, so the two dex tags may coincide. -/
theorem c1_scan_pair_pools_distinct
    {self : CrossDexScanner} {decs : String → ℤ} {pair : String}
    {default_borrow : ℕ} {states : List PoolState} {o : CrossDexOpportunity}
    (h : self.scan_pair decs pair default_borrow states = some o) :
    o.buy_pool ∈ states ∧ o.sell_pool ∈ states ∧
    o.buy_price ≤ o.sell_price ∧
    ((states.map PoolState.pool_address).Nodup →
      o.buy_pool.pool_address ≠ o.sell_pool.pool_address) := by
  obtain ⟨tm, qm, _, hlen, c, d, hc, hd, hbuy, hsell, hbp, hsp, -, -, -⟩ :=
    scan_pair_inv h
  have hperm := List.perm_insertionSort price_le
    (normalized_pools decs qm tm states)
  have hcmem : c ∈ normalized_pools decs qm tm states :=
    hperm.mem_iff.mp (List.mem_of_mem_head? (Option.mem_def.mpr hc))
  have hdmem : d ∈ normalized_pools decs qm tm states :=
    hperm.mem_iff.mp (List.mem_of_mem_getLast? (Option.mem_def.mpr hd))
  refine ⟨hbuy ▸ normalized_pools_mem hcmem, hsell ▸ normalized_pools_mem hdmem,
    ?_, ?_⟩
  · rw [hbp, hsp]
    exact sorted_head?_le_getLast? (List.sorted_insertionSort price_le _) hc hd
  · intro hnd
    have hsub := (normalized_pools_fst_sublist decs qm tm states).map
      PoolState.pool_address
    have hnd1 : ((normalized_pools decs qm tm states).map
        (fun x => x.1.pool_address)).Nodup := by
      have := hsub.trans ((List.filter_sublist states).map PoolState.pool_address)
      simpa [List.map_map, Function.comp] using this.nodup hnd
    have hnd2 : ((List.insertionSort price_le
        (normalized_pools decs qm tm states)).map
        (fun x => x.1.pool_address)).Nodup :=
      ((hperm.map _).nodup_iff).mpr hnd1
    have hlen2 : 2 ≤ (List.insertionSort price_le
        (normalized_pools decs qm tm states)).length := by
      rw [(List.perm_insertionSort price_le _).length_eq]
      exact hlen
    rw [hbuy, hsell]
    exact head_getLast_addr_ne hnd2 hlen2 hc hd

/-- A pool template used by the concrete scanner scenarios: a Raydium-CLMM
pool for the pair `TGTMINT/QUOMINT` whose decoded decimal-adjusted price is
given directly. -/
def cx_pool (addr : String) (price : ℚ) : PoolState :=
  { pool_address := addr, dex := "raydium_clmm", token_mint_a := "TGTMINT",
    token_mint_b := "QUOMINT", token_vault_a := "VA1", token_vault_b := "VB1",
    price := price, liquidity := 1000 }

/-- Concrete evaluation of `scan_pair` on two Raydium-CLMM pools with
normalized prices `p1 ≤ p2`: the scanner emits the spread opportunity as soon
as the raw spread clears the threshold and the 500 bps gate, regardless of
any venue-family comparison or of the estimated net margin. -/
theorem scan_pair_two_clmm (self : CrossDexScanner) (decs : String → ℤ)
    (p1 p2 : ℚ) (default_borrow : ℕ) (h1 : 0 < p1) (h12 : p1 ≤ p2)
    (hsp : ¬ 500 < py_int ((p2 - p1) / p1 * 10000))
    (hmin : self.min_spread_bps ≤ py_int ((p2 - p1) / p1 * 10000)) :
    self.scan_pair decs "TGTMINT/QUOMINT" default_borrow
      [cx_pool "P1" p1, cx_pool "P2" p2] =
    some { pair := "TGTMINT/QUOMINT", token_a := "QUOMINT",
           token_b := "TGTMINT", borrow_amount := default_borrow,
           buy_pool := cx_pool "P1" p1, sell_pool := cx_pool "P2" p2,
           buy_price := p1, sell_price := p2,
           spread_bps := py_int ((p2 - p1) / p1 * 10000),
           estimated_profit_bps :=
             py_int ((p2 - p1) / p1 * 10000) - (self.pool_fee_bps + 60 + 2) } := by
  have h2 : 0 < p2 := h1.trans_le h12
  have hpp : parse_pair "TGTMINT/QUOMINT" = some ("TGTMINT", "QUOMINT") := by
    decide
  have hnorm : normalized_pools decs "QUOMINT" "TGTMINT"
      [cx_pool "P1" p1, cx_pool "P2" p2] =
      [(cx_pool "P1" p1, p1), (cx_pool "P2" p2, p2)] := by
    simp [normalized_pools, normalize_price, cx_pool, List.filter, h1, h2,
      not_le.mpr h1, not_le.mpr h2]
  have hsort : List.insertionSort price_le
      [(cx_pool "P1" p1, p1), (cx_pool "P2" p2, p2)] =
      [(cx_pool "P1" p1, p1), (cx_pool "P2" p2, p2)] := by
    simp [List.insertionSort, List.orderedInsert, price_le, h12]
  have hbo : get_borrow_override "TGTMINT" = 0 := by decide
  have hd1 : (decide (0 < (cx_pool "P1" p1).price)) = true := by
    simp [cx_pool, h1]
  have hd2 : (decide (0 < (cx_pool "P2" p2).price)) = true := by
    simp [cx_pool, h2]
  unfold CrossDexScanner.scan_pair
  rw [hpp]
  simp only [hnorm, hsort, hbo, List.filter, hd1, hd2, List.length_cons,
    List.length_nil, List.head?_cons, List.getLast?_cons_cons,
    List.getLast?_singleton]
  norm_num [hsp, hmin]

/-- The opportunity emitted in the C1 scenario: two pools of the same venue
family (`raydium_clmm`) with a 30 bps spread. -/
def c1_opp : CrossDexOpportunity :=
  { pair := "TGTMINT/QUOMINT", token_a := "QUOMINT", token_b := "TGTMINT",
    borrow_amount := 200000000, buy_pool := cx_pool "P1" 1,
    sell_pool := cx_pool "P2" (1003/1000), buy_price := 1,
    sell_price := 1003/1000, spread_bps := 30, estimated_profit_bps := -41 }

/-- C1 is false as stated: on two pools that both carry the `raydium_clmm`
dex tag, `scan_pair` emits an opportunity whose buy pool and sell pool have
the same venue family. -/
theorem c1_counterexample :
    CrossDexScanner.scan_pair {} (fun _ => 6) "TGTMINT/QUOMINT" 200000000
      [cx_pool "P1" 1, cx_pool "P2" (1003/1000)] = some c1_opp ∧
    c1_opp.buy_pool.dex = c1_opp.sell_pool.dex := by
  have hsp30 : py_int ((1003/1000 - 1) / 1 * 10000 : ℚ) = 30 := by
    norm_num [py_int]
  constructor
  · rw [scan_pair_two_clmm {} (fun _ => 6) 1 (1003/1000) 200000000
      (by norm_num) (by norm_num) (by rw [hsp30]; norm_num)
      (by rw [hsp30]; norm_num)]
    norm_num [c1_opp, hsp30]
    refine ⟨?_, ?_⟩ <;> norm_num [py_int]
  · rfl

/-- C2 (amended): `scan_pair` emits exactly on the raw-spread test: every
emitted opportunity satisfies `min_spread_bps ≤ spread_bps ≤ 500` and records
`estimated_profit_bps = spread_bps − (pool_fee_bps + 60 + 2)`, but the
estimated net margin itself is never compared against the threshold and may
lie below it. -/
theorem c2_scan_pair_spread_threshold
    {self : CrossDexScanner} {decs : String → ℤ} {pair : String}
    {default_borrow : ℕ} {states : List PoolState} {o : CrossDexOpportunity}
    (h : self.scan_pair decs pair default_borrow states = some o) :
    self.min_spread_bps ≤ o.spread_bps ∧ o.spread_bps ≤ 500 ∧
    o.estimated_profit_bps = o.spread_bps - (self.pool_fee_bps + 60 + 2) := by
  obtain ⟨tm, qm, -, -, c, d, -, -, -, -, -, -, -, h500, hmin, hest⟩ :=
    scan_pair_inv h
  exact ⟨hmin, h500, hest⟩

/-- The opportunity emitted in the C2 scenario: raw spread 20 bps, estimated
net margin −51 bps. -/
def c2_opp : CrossDexOpportunity :=
  { pair := "TGTMINT/QUOMINT", token_a := "QUOMINT", token_b := "TGTMINT",
    borrow_amount := 200000000, buy_pool := cx_pool "P1" 1,
    sell_pool := cx_pool "P2" (1002/1000), buy_price := 1,
    sell_price := 1002/1000, spread_bps := 20, estimated_profit_bps := -51 }

/-- C2 is false as stated: with the default configuration (threshold 15 bps,
cost stack 9 + 60 + 2 = 71 bps), a raw spread of 20 bps is emitted although
its estimated net margin (−51 bps) is far below the threshold: the emission
test uses the raw spread, not the net margin. -/
theorem c2_counterexample :
    CrossDexScanner.scan_pair {} (fun _ => 6) "TGTMINT/QUOMINT" 200000000
      [cx_pool "P1" 1, cx_pool "P2" (1002/1000)] = some c2_opp ∧
    c2_opp.estimated_profit_bps < ({} : CrossDexScanner).min_spread_bps := by
  have hsp20 : py_int ((1002/1000 - 1) / 1 * 10000 : ℚ) = 20 := by
    norm_num [py_int]
  constructor
  · rw [scan_pair_two_clmm {} (fun _ => 6) 1 (1002/1000) 200000000
      (by norm_num) (by norm_num) (by rw [hsp20]; norm_num)
      (by rw [hsp20]; norm_num)]
    norm_num [c2_opp, hsp20]
    refine ⟨?_, ?_⟩ <;> norm_num [py_int]
  · norm_num [c2_opp]

/-- Witness for C1 (amended) at a concrete emitted opportunity
(prices 1 and 1.01, spread 100 bps). -/
theorem c1_witness :
    (cx_pool "P1" 1) ∈ [cx_pool "P1" 1, cx_pool "P2" (101/100)] ∧
    (cx_pool "P2" (101/100)) ∈ [cx_pool "P1" 1, cx_pool "P2" (101/100)] ∧
    (1 : ℚ) ≤ 101/100 ∧ "P1" ≠ "P2" := by
  have hsp : py_int ((101/100 - 1) / 1 * 10000 : ℚ) = 100 := by
    norm_num [py_int]
  have h : CrossDexScanner.scan_pair {} (fun _ => 6) "TGTMINT/QUOMINT"
      200000000 [cx_pool "P1" 1, cx_pool "P2" (101/100)] =
      some { pair := "TGTMINT/QUOMINT", token_a := "QUOMINT",
             token_b := "TGTMINT", borrow_amount := 200000000,
             buy_pool := cx_pool "P1" 1, sell_pool := cx_pool "P2" (101/100),
             buy_price := 1, sell_price := 101/100, spread_bps := 100,
             estimated_profit_bps := 29 } := by
    rw [scan_pair_two_clmm {} (fun _ => 6) 1 (101/100) 200000000
      (by norm_num) (by norm_num) (by rw [hsp]; norm_num)
      (by rw [hsp]; norm_num)]
    norm_num [hsp]
    refine ⟨?_, ?_⟩ <;> norm_num [py_int]
  have hc := c1_scan_pair_pools_distinct h
  exact ⟨hc.1, hc.2.1, hc.2.2.1, hc.2.2.2 (by simp [cx_pool])⟩

/-- Witness for C2 (amended) at a concrete emitted opportunity
(prices 1 and 1.02: spread 200 bps, estimated net margin 129 bps). -/
theorem c2_witness :
    (15 : ℤ) ≤ 200 ∧ (200 : ℤ) ≤ 500 ∧ (129 : ℤ) = 200 - (9 + 60 + 2) := by
  have hsp : py_int ((102/100 - 1) / 1 * 10000 : ℚ) = 200 := by
    norm_num [py_int]
  have h : CrossDexScanner.scan_pair {} (fun _ => 6) "TGTMINT/QUOMINT"
      200000000 [cx_pool "P1" 1, cx_pool "P2" (102/100)] =
      some { pair := "TGTMINT/QUOMINT", token_a := "QUOMINT",
             token_b := "TGTMINT", borrow_amount := 200000000,
             buy_pool := cx_pool "P1" 1, sell_pool := cx_pool "P2" (102/100),
             buy_price := 1, sell_price := 102/100, spread_bps := 200,
             estimated_profit_bps := 129 } := by
    rw [scan_pair_two_clmm {} (fun _ => 6) 1 (102/100) 200000000
      (by norm_num) (by norm_num) (by rw [hsp]; norm_num)
      (by rw [hsp]; norm_num)]
    norm_num [hsp]
    refine ⟨?_, ?_⟩ <;> norm_num [py_int]
  exact c2_scan_pair_spread_threshold h

/-! ### triangular_scanner.py -/

/-- `triangular_scanner.PriceEdge`: a directed price edge in the token
graph. -/
structure PriceEdge where
  from_mint : String
  to_mint : String
  rate : ℚ
  pool_address : String
  dex : String
  pool_state : PoolState
  fee_bps : ℕ := 30
deriving DecidableEq, Repr

/-- `triangular_scanner.TriangularOpportunity`. -/
structure TriangularOpportunity where
  path : List String
  edges : List PriceEdge
  round_trip_rate : ℚ
  gross_profit_bps : ℤ
  net_profit_bps : ℤ
  borrow_amount : ℕ
  source : String := "triangular"
deriving DecidableEq, Repr

/-- Scanner configuration (the constructor arguments of
`triangular_scanner.TriangularScanner`). -/
structure TriangularScanner where
  flash_fee_bps : ℤ := 9
  min_profit_bps : ℤ := 15
deriving DecidableEq, Repr

/-- `TriangularScanner._estimate_fee_bps`. -/
def estimate_fee_bps (state : PoolState) : ℕ :=
  if state.dex = "orca" ∧ 0 < state.fee_rate then max 1 (state.fee_rate / 100)
  else if state.dex = "raydium_clmm" then 25
  else if state.dex = "raydium_v4" then 25
  else if state.dex = "meteora" then max 10 state.fee_rate
  else 30

/-- `TriangularScanner._compute_rate`: exchange rate from one mint to the
other through a pool. -/
def compute_rate (decs : String → ℤ) (state : PoolState)
    (from_mint to_mint : String) : Option ℚ :=
  let mint_a := state.token_mint_a
  let mint_b := state.token_mint_b
  if ¬((mint_a = from_mint ∧ mint_b = to_mint) ∨
       (mint_a = to_mint ∧ mint_b = from_mint)) then none
  else if state.dex = "raydium_v4" then none
  else if (state.dex = "raydium_clmm" ∨ state.dex = "orca") ∧
      state.liquidity = 0 then none
  else
    let price : ℚ :=
      if state.dex = "orca" ∧ 0 < state.sqrt_price_x64 then
        ((state.sqrt_price_x64 : ℚ) / 2 ^ 64) ^ 2 *
          (10 : ℚ) ^ (decs mint_a - decs mint_b)
      else if state.dex = "meteora" then
        state.price * (10 : ℚ) ^ (decs mint_a - decs mint_b)
      else state.price
    if price ≤ 0 then none
    else if mint_a = from_mint ∧ mint_b = to_mint then some price
    else if mint_a = to_mint ∧ mint_b = from_mint then some (1 / price)
    else none

/-- One candidate directed edge produced by `build_graph` for a pool state
(`rate_ab and rate_ab > 0` gate included). -/
def edge_candidate (decs : String → ℤ) (state : PoolState)
    (from_mint to_mint : String) : Option PriceEdge :=
  (compute_rate decs state from_mint to_mint).bind (fun r =>
    if 0 < r then
      some { from_mint := from_mint, to_mint := to_mint, rate := r,
             pool_address := state.pool_address, dex := state.dex,
             pool_state := state, fee_bps := estimate_fee_bps state }
    else none)

/-- All candidate edges `build_graph` collects before outlier filtering (both
directions of every fetched pool state). -/
def candidate_edges (decs : String → ℤ) (states : List PoolState) :
    List PriceEdge :=
  states.flatMap (fun s =>
    (edge_candidate decs s s.token_mint_a s.token_mint_b).toList ++
    (edge_candidate decs s s.token_mint_b s.token_mint_a).toList)

/-- The `(from_mint, to_mint)` dictionary key of a candidate edge. -/
def edge_key (e : PriceEdge) : String × String := (e.from_mint, e.to_mint)

/-- Dictionary key iteration order of `candidate_edges`: first occurrence of
each `(from, to)` key. -/
def key_order : List PriceEdge → List (String × String)
  | [] => []
  | e :: es =>
    edge_key e :: key_order (es.filter (fun x => edge_key x ≠ edge_key e))
termination_by l => l.length
decreasing_by
  simp only [List.length_cons]
  exact Nat.lt_succ_of_le (List.length_filter_le _ _)

/-- The candidate edges grouped under one `(from, to)` key, in insertion
order. -/
def group_for (cand : List PriceEdge) (k : String × String) : List PriceEdge :=
  cand.filter (fun e => edge_key e = k)

/-- `median_rate = rates[len(rates) // 2]` over the ascending-sorted candidate
rates of one key. -/
def median_rate (g : List PriceEdge) : ℚ :=
  ((g.map PriceEdge.rate).insertionSort (· ≤ ·)).getD (g.length / 2) 0

/-- The outlier filter of `build_graph`: for a key with at least two
candidates, keep only edges with `0.5·median ≤ rate ≤ 2.0·median`. -/
def filtered_group (g : List PriceEdge) : List PriceEdge :=
  if 2 ≤ g.length then
    g.filter (fun e =>
      (1/2 : ℚ) * median_rate g ≤ e.rate ∧ e.rate ≤ 2 * median_rate g)
  else g

/-- Adjacency-list key order of the final graph: first occurrence of each
`from_mint` among the retained edges. -/
def mint_order : List PriceEdge → List String
  | [] => []
  | e :: es =>
    e.from_mint :: mint_order (es.filter (fun x => x.from_mint ≠ e.from_mint))
termination_by l => l.length
decreasing_by
  simp only [List.length_cons]
  exact Nat.lt_succ_of_le (List.length_filter_le _ _)

/-- `TriangularScanner.build_graph` as a function of the fetched pool states:
collect both directed candidate edges per pool, apply the median outlier
filter per `(from, to)` key, and group retained edges by source mint. -/
def build_graph (decs : String → ℤ) (states : List PoolState) :
    List (String × List PriceEdge) :=
  (mint_order ((key_order (candidate_edges decs states)).flatMap (fun k =>
      filtered_group (group_for (candidate_edges decs states) k)))).map
    (fun m =>
      (m, ((key_order (candidate_edges decs states)).flatMap (fun k =>
          filtered_group (group_for (candidate_edges decs states) k))).filter
        (fun e => e.from_mint = m)))

/-- `self._graph.get(mint, [])`. -/
def graph_get (g : List (String × List PriceEdge)) (m : String) :
    List PriceEdge := (g.lookup m).getD []

/-- The net round-trip rate after the three swap-fee haircuts. -/
def net_rate (e1 e2 e3 : PriceEdge) : ℚ :=
  (e1.rate * e2.rate * e3.rate) *
    ((1 - (e1.fee_bps : ℚ)/10000) * (1 - (e2.fee_bps : ℚ)/10000) *
     (1 - (e3.fee_bps : ℚ)/10000))

/-- The innermost loop body of `scan_triangles`: guards on the closing edge,
pool distinctness, round-trip plausibility and net margin, and the emitted
opportunity. -/
def tri_candidate (self : TriangularScanner) (borrow_amount : ℕ)
    (usdc_mint : String) (e1 e2 e3 : PriceEdge) :
    List TriangularOpportunity :=
  if e3.to_mint ≠ usdc_mint then []
  else if e1.pool_address = e2.pool_address ∨
      e1.pool_address = e3.pool_address ∨
      e2.pool_address = e3.pool_address then []
  else if 1015/1000 < e1.rate * e2.rate * e3.rate ∨
      e1.rate * e2.rate * e3.rate < 1/2 then []
  else if self.min_profit_bps ≤
      py_int ((net_rate e1 e2 e3 - 1) * 10000) - self.flash_fee_bps - 3 then
    [{ path := [usdc_mint, e1.to_mint, e2.to_mint, usdc_mint],
       edges := [e1, e2, e3],
       round_trip_rate := e1.rate * e2.rate * e3.rate,
       gross_profit_bps := py_int ((net_rate e1 e2 e3 - 1) * 10000),
       net_profit_bps :=
         py_int ((net_rate e1 e2 e3 - 1) * 10000) - self.flash_fee_bps - 3,
       borrow_amount := borrow_amount }]
  else []

/-- Descending order on net profit (`sort(key=..., reverse=True)`). -/
def net_ge (a b : TriangularOpportunity) : Prop :=
  b.net_profit_bps ≤ a.net_profit_bps

instance : DecidableRel net_ge :=
  fun a b => inferInstanceAs (Decidable (b.net_profit_bps ≤ a.net_profit_bps))

/-- `f"{opp.path[1][:8]}→{opp.path[2][:8]}"`. -/
def path_key (o : TriangularOpportunity) : String :=
  str_take (o.path.getD 1 "") 8 ++ "→" ++ str_take (o.path.getD 2 "") 8

/-- The final deduplication of `scan_triangles`: keep the first (best)
opportunity per path key. -/
def dedup_by_path : List TriangularOpportunity → List String →
    List TriangularOpportunity
  | [], _ => []
  | o :: rest, seen =>
    if path_key o ∈ seen then dedup_by_path rest seen
    else o :: dedup_by_path rest (path_key o :: seen)

/-- `TriangularScanner.scan_triangles` as a function of the price graph
(`best_triangles` bookkeeping and logging, which do not influence the
returned list, are not modelled).  `focus_mints = []` encodes the falsy
`None`/empty set: no focus filtering. -/
def TriangularScanner.scan_triangles (self : TriangularScanner)
    (graph : List (String × List PriceEdge)) (borrow_amount : ℕ)
    (focus_mints : List String) : List TriangularOpportunity :=
  dedup_by_path
    (List.insertionSort net_ge
      ((graph_get graph (resolve_mint "USDC")).flatMap (fun e1 =>
        if e1.to_mint = resolve_mint "USDC" then []
        else if focus_mints ≠ [] ∧ e1.to_mint ∉ focus_mints then []
        else (graph_get graph e1.to_mint).flatMap (fun e2 =>
          if e2.to_mint = resolve_mint "USDC" ∨ e2.to_mint = e1.to_mint then []
          else (graph_get graph e2.to_mint).flatMap (fun e3 =>
            tri_candidate self borrow_amount (resolve_mint "USDC") e1 e2 e3)))))
    []

/-- Deduplication only drops elements. -/
theorem mem_dedup_by_path {o : TriangularOpportunity} :
    ∀ {l : List TriangularOpportunity} {seen : List String},
      o ∈ dedup_by_path l seen → o ∈ l := by
  intro l
  induction l with
  | nil => intro seen h; simp [dedup_by_path] at h
  | cons a rest ih =>
    intro seen h
    unfold dedup_by_path at h
    split at h
    · exact List.mem_cons_of_mem a (ih h)
    · rcases List.mem_cons.mp h with h1 | h2
      · exact h1 ▸ List.mem_cons_self a rest
      · exact List.mem_cons_of_mem a (ih h2)

/-- The guards of `tri_candidate` force the recorded round-trip rate into the
plausibility window. -/
theorem tri_candidate_bounds {self : TriangularScanner} {borrow_amount : ℕ}
    {usdc_mint : String} {e1 e2 e3 : PriceEdge} {o : TriangularOpportunity}
    (h : o ∈ tri_candidate self borrow_amount usdc_mint e1 e2 e3) :
    1/2 ≤ o.round_trip_rate ∧ o.round_trip_rate ≤ 1015/1000 := by
  unfold tri_candidate at h
  split at h
  · simp at h
  split at h
  · simp at h
  split at h
  · simp at h
  next hrt =>
  split at h
  · rcases List.mem_singleton.mp h with rfl
    push_neg at hrt
    exact ⟨by simpa using hrt.2, by simpa using hrt.1⟩
  · simp at h

/-- C3: plausibility bounds on every emitted candidate: every triangular
opportunity returned by `TriangularScanner.scan_triangles` has
`round_trip_rate ∈ [0.5, 1.015]`, and every two-leg cross-venue opportunity
returned by `CrossDexScanner.scan_pair` has `spread_bps ≤ 500`. -/
theorem c3_plausibility_bounds :
    (∀ (self : TriangularScanner) (graph : List (String × List PriceEdge))
       (borrow_amount : ℕ) (focus_mints : List String)
       (o : TriangularOpportunity),
        o ∈ self.scan_triangles graph borrow_amount focus_mints →
        1/2 ≤ o.round_trip_rate ∧ o.round_trip_rate ≤ 1015/1000) ∧
    (∀ (self : CrossDexScanner) (decs : String → ℤ) (pair : String)
       (default_borrow : ℕ) (states : List PoolState)
       (o : CrossDexOpportunity),
        self.scan_pair decs pair default_borrow states = some o →
        o.spread_bps ≤ 500) := by
  constructor
  · intro self graph borrow_amount focus_mints o ho
    have h1 : o ∈ List.insertionSort net_ge
        ((graph_get graph (resolve_mint "USDC")).flatMap (fun e1 =>
          if e1.to_mint = resolve_mint "USDC" then []
          else if focus_mints ≠ [] ∧ e1.to_mint ∉ focus_mints then []
          else (graph_get graph e1.to_mint).flatMap (fun e2 =>
            if e2.to_mint = resolve_mint "USDC" ∨ e2.to_mint = e1.to_mint then
              []
            else (graph_get graph e2.to_mint).flatMap (fun e3 =>
              tri_candidate self borrow_amount (resolve_mint "USDC")
                e1 e2 e3)))) :=
      mem_dedup_by_path ho
    have h2 := (List.perm_insertionSort net_ge _).mem_iff.mp h1
    obtain ⟨e1, -, hin⟩ := List.mem_flatMap.mp h2
    split at hin
    · simp at hin
    split at hin
    · simp at hin
    obtain ⟨e2, -, hin2⟩ := List.mem_flatMap.mp hin
    split at hin2
    · simp at hin2
    obtain ⟨e3, -, hin3⟩ := List.mem_flatMap.mp hin2
    exact tri_candidate_bounds hin3
  · intro self decs pair default_borrow states o h
    obtain ⟨tm, qm, -, -, c, d, -, -, -, -, -, -, -, h500, -, -⟩ :=
      scan_pair_inv h
    exact h500

/-- The USDC mint address (`WELL_KNOWN_MINTS["USDC"]`). -/
def USDC_MINT : String := "EPjFWdd5AufqSSqeM2qN1xzybapC8G4wEGGkZwyTDt1v"

theorem resolve_usdc : resolve_mint "USDC" = USDC_MINT := by decide

/-- A Raydium-CLMM pool state template for the triangular scenarios. -/
def tri_state (addr ma mb : String) (p : ℚ) : PoolState :=
  { pool_address := addr, dex := "raydium_clmm", token_mint_a := ma,
    token_mint_b := mb, token_vault_a := "VA", token_vault_b := "VB",
    price := p, liquidity := 1 }

/-- First leg of the concrete triangle: USDC → X at rate 1.01, 1 bp fee. -/
def t_e1 : PriceEdge :=
  { from_mint := USDC_MINT, to_mint := "XMINT", rate := 101/100,
    pool_address := "TP1", dex := "raydium_clmm",
    pool_state := tri_state "TP1" USDC_MINT "XMINT" (101/100), fee_bps := 1 }

/-- Second leg: X → Y at rate 1, 1 bp fee. -/
def t_e2 : PriceEdge :=
  { from_mint := "XMINT", to_mint := "YMINT", rate := 1,
    pool_address := "TP2", dex := "raydium_clmm",
    pool_state := tri_state "TP2" "XMINT" "YMINT" 1, fee_bps := 1 }

/-- Third leg: Y → USDC at rate 1, 1 bp fee. -/
def t_e3 : PriceEdge :=
  { from_mint := "YMINT", to_mint := USDC_MINT, rate := 1,
    pool_address := "TP3", dex := "raydium_clmm",
    pool_state := tri_state "TP3" "YMINT" USDC_MINT 1, fee_bps := 1 }

/-- The concrete three-mint price graph. -/
def c3_graph : List (String × List PriceEdge) :=
  [(USDC_MINT, [t_e1]), ("XMINT", [t_e2]), ("YMINT", [t_e3])]

/-- The opportunity the concrete triangle emits: round trip 1.01, gross 96
bps after swap fees, net 84 bps. -/
def c3_opp : TriangularOpportunity :=
  { path := [USDC_MINT, "XMINT", "YMINT", USDC_MINT],
    edges := [t_e1, t_e2, t_e3], round_trip_rate := 101/100,
    gross_profit_bps := 96, net_profit_bps := 84,
    borrow_amount := 200000000 }

/-- Concrete evaluation of `scan_triangles` on the three-edge graph. -/
theorem c3_tri_eval :
    TriangularScanner.scan_triangles {} c3_graph 200000000 [] = [c3_opp] := by
  have hbx : (("XMINT" : String) == USDC_MINT) = false := by decide
  have hby : (("YMINT" : String) == USDC_MINT) = false := by decide
  have g0 : graph_get c3_graph USDC_MINT = [t_e1] := by
    simp [graph_get, c3_graph, List.lookup]
  have gX : graph_get c3_graph "XMINT" = [t_e2] := by
    simp [graph_get, c3_graph, List.lookup, hbx]
  have gY : graph_get c3_graph "YMINT" = [t_e3] := by
    simp [graph_get, c3_graph, List.lookup, hby]
  have hxne : ("XMINT" : String) ≠ USDC_MINT := by decide
  have hyne : ("YMINT" : String) ≠ USDC_MINT := by decide
  have hyx : ("YMINT" : String) ≠ "XMINT" := by decide
  have hcand : tri_candidate {} 200000000 USDC_MINT t_e1 t_e2 t_e3 =
      [c3_opp] := by
    unfold tri_candidate
    rw [if_neg (by simp [t_e3])]
    rw [if_neg (by simp [t_e1, t_e2, t_e3])]
    rw [if_neg (by norm_num [t_e1, t_e2, t_e3])]
    rw [if_pos (by norm_num [t_e1, t_e2, t_e3, net_rate, py_int])]
    simp only [c3_opp, t_e1, t_e2, t_e3]
    norm_num [net_rate, py_int]
  have e1to : t_e1.to_mint = "XMINT" := rfl
  have e2to : t_e2.to_mint = "YMINT" := rfl
  unfold TriangularScanner.scan_triangles
  rw [resolve_usdc, g0]
  simp only [List.flatMap_cons, List.flatMap_nil, List.append_nil, e1to]
  rw [if_neg hxne]
  rw [if_neg (by simp)]
  rw [gX]
  simp only [List.flatMap_cons, List.flatMap_nil, List.append_nil, e2to]
  rw [if_neg (by simp [hyne, hyx])]
  rw [gY]
  simp only [List.flatMap_cons, List.flatMap_nil, List.append_nil]
  rw [hcand]
  simp [List.insertionSort, dedup_by_path]

/-- Witness for C3 at the concrete triangle (round trip 1.01) and a concrete
two-pool spread of 300 bps. -/
theorem c3_witness :
    ((1 : ℚ)/2 ≤ c3_opp.round_trip_rate ∧
      c3_opp.round_trip_rate ≤ 1015/1000) ∧ (300 : ℤ) ≤ 500 := by
  have htri := c3_plausibility_bounds.1 {} c3_graph 200000000 [] c3_opp
    (by rw [c3_tri_eval]; exact List.mem_singleton_self _)
  have hsp : py_int ((103/100 - 1) / 1 * 10000 : ℚ) = 300 := by
    norm_num [py_int]
  have hscan : CrossDexScanner.scan_pair {} (fun _ => 6) "TGTMINT/QUOMINT"
      200000000 [cx_pool "P1" 1, cx_pool "P2" (103/100)] =
      some { pair := "TGTMINT/QUOMINT", token_a := "QUOMINT",
             token_b := "TGTMINT", borrow_amount := 200000000,
             buy_pool := cx_pool "P1" 1, sell_pool := cx_pool "P2" (103/100),
             buy_price := 1, sell_price := 103/100, spread_bps := 300,
             estimated_profit_bps := 229 } := by
    rw [scan_pair_two_clmm {} (fun _ => 6) 1 (103/100) 200000000
      (by norm_num) (by norm_num) (by rw [hsp]; norm_num)
      (by rw [hsp]; norm_num)]
    norm_num [hsp]
    refine ⟨?_, ?_⟩ <;> norm_num [py_int]
  have hcross := c3_plausibility_bounds.2 {} (fun _ => 6) "TGTMINT/QUOMINT"
    200000000 [cx_pool "P1" 1, cx_pool "P2" (103/100)] _ hscan
  exact ⟨htri, hcross⟩

/-- Looking up an adjacency list built by mapping over its key list. -/
theorem lookup_map_keys (keys : List String) (f : String → List PriceEdge)
    (m : String) :
    (keys.map (fun k => (k, f k))).lookup m =
      if m ∈ keys then some (f m) else none := by
  induction keys with
  | nil => simp
  | cons k ks ih =>
    by_cases hmk : m = k
    · subst hmk
      simp [List.lookup]
    · simp [List.lookup, hmk, ih, beq_eq_false_iff_ne.mpr hmk]

/-- Membership in the graph means membership in the retained (filtered) edge
list. -/
theorem mem_graph_retained {decs : String → ℤ} {states : List PoolState}
    {m : String} {e : PriceEdge}
    (h : e ∈ graph_get (build_graph decs states) m) :
    ∃ k ∈ key_order (candidate_edges decs states),
      e ∈ filtered_group (group_for (candidate_edges decs states) k) := by
  unfold graph_get build_graph at h
  rw [lookup_map_keys] at h
  split at h
  · simp only [Option.getD_some] at h
    exact List.mem_flatMap.mp (List.mem_of_mem_filter h)
  · simp at h

/-- The outlier filter only keeps members of the group. -/
theorem mem_of_mem_filtered_group {g : List PriceEdge} {e : PriceEdge}
    (h : e ∈ filtered_group g) : e ∈ g := by
  unfold filtered_group at h
  split at h
  · exact List.mem_of_mem_filter h
  · exact h

/-- Members of a key group carry that key. -/
theorem edge_key_of_mem_group_for {cand : List PriceEdge}
    {k : String × String} {e : PriceEdge} (h : e ∈ group_for cand k) :
    edge_key e = k := by
  unfold group_for at h
  simpa using (List.mem_filter.mp h).2

/-- One of four candidate edges `MA → MB` with the given rate, for the C7
example. -/
def c7_edge (addr : String) (r : ℚ) : PriceEdge :=
  { from_mint := "MA", to_mint := "MB", rate := r, pool_address := addr,
    dex := "raydium_clmm", pool_state := tri_state addr "MA" "MB" r,
    fee_bps := 25 }

/-- The candidate group of the C7 example: rates `[1.00, 1.01, 1.00, 50.0]`. -/
def c7_group : List PriceEdge :=
  [c7_edge "Q1" 1, c7_edge "Q2" (101/100), c7_edge "Q3" 1, c7_edge "Q4" 50]

/-- C7: median outlier filter of the triangular graph build.  General part:
every edge retained in the graph whose own `(from, to)` key had at least two
candidates lies within `[0.5·median, 2.0·median]` of that key group's median
rate (the source computes the median of `n` sorted rates as entry `n // 2`).
Concrete part: for candidate rates `[1.00, 1.01, 1.00, 50.0]` the computed
median is 1.01 and the filter keeps exactly the three edges with rates
`[1.00, 1.01, 1.00]`, dropping the rate-50.0 edge. -/
theorem c7_outlier_filter :
    (∀ (decs : String → ℤ) (states : List PoolState) (m : String)
       (e : PriceEdge),
        e ∈ graph_get (build_graph decs states) m →
        2 ≤ (group_for (candidate_edges decs states) (edge_key e)).length →
        (1/2 : ℚ) *
            median_rate (group_for (candidate_edges decs states) (edge_key e)) ≤
            e.rate ∧
          e.rate ≤
            2 * median_rate
              (group_for (candidate_edges decs states) (edge_key e))) ∧
    median_rate c7_group = 101/100 ∧
    (filtered_group c7_group).map PriceEdge.rate = [1, 101/100, 1] := by
  refine ⟨?_, ?_, ?_⟩
  · intro decs states m e hmem hlen
    obtain ⟨k, -, hfk⟩ := mem_graph_retained hmem
    have hk : edge_key e = k :=
      edge_key_of_mem_group_for (mem_of_mem_filtered_group hfk)
    subst hk
    unfold filtered_group at hfk
    rw [if_pos hlen] at hfk
    simpa using (List.mem_filter.mp hfk).2
  · show median_rate c7_group = 101/100
    unfold median_rate c7_group c7_edge
    norm_num [List.insertionSort, List.orderedInsert]
  · have hm : median_rate c7_group = 101/100 := by
      unfold median_rate c7_group c7_edge
      norm_num [List.insertionSort, List.orderedInsert]
    unfold filtered_group
    rw [if_pos (by norm_num [c7_group])]
    rw [hm]
    unfold c7_group c7_edge
    norm_num [List.filter]

/-- Two concrete pools of the witness pair, with prices 1 and 1.01. -/
def c7w_s1 : PoolState := tri_state "W1" "MA" "MB" 1

/-- Second witness pool. -/
def c7w_s2 : PoolState := tri_state "W2" "MA" "MB" (101/100)

/-- Forward edge of the first witness pool. -/
def c7w_eA1 : PriceEdge :=
  { from_mint := "MA", to_mint := "MB", rate := 1, pool_address := "W1",
    dex := "raydium_clmm", pool_state := c7w_s1, fee_bps := 25 }

/-- Reverse edge of the first witness pool. -/
def c7w_eB1 : PriceEdge :=
  { from_mint := "MB", to_mint := "MA", rate := 1, pool_address := "W1",
    dex := "raydium_clmm", pool_state := c7w_s1, fee_bps := 25 }

/-- Forward edge of the second witness pool. -/
def c7w_eA2 : PriceEdge :=
  { from_mint := "MA", to_mint := "MB", rate := 101/100,
    pool_address := "W2", dex := "raydium_clmm", pool_state := c7w_s2,
    fee_bps := 25 }

/-- Reverse edge of the second witness pool. -/
def c7w_eB2 : PriceEdge :=
  { from_mint := "MB", to_mint := "MA", rate := 100/101,
    pool_address := "W2", dex := "raydium_clmm", pool_state := c7w_s2,
    fee_bps := 25 }

/-- Candidate edges of the two witness pools, in collection order. -/
theorem c7w_cand_eval :
    candidate_edges (fun _ => 6) [c7w_s1, c7w_s2] =
      [c7w_eA1, c7w_eB1, c7w_eA2, c7w_eB2] := by
  have hMAB : ¬(("MA" : String) = "MB") := by decide
  have hMBA : ¬(("MB" : String) = "MA") := by decide
  have hd1 : ¬(("raydium_clmm" : String) = "raydium_v4") := by decide
  have hd2 : ¬(("raydium_clmm" : String) = "orca") := by decide
  have hd3 : ¬(("raydium_clmm" : String) = "meteora") := by decide
  unfold candidate_edges edge_candidate compute_rate estimate_fee_bps
  norm_num [c7w_s1, c7w_s2, c7w_eA1, c7w_eB1, c7w_eA2, c7w_eB2, tri_state,
    hMAB, hMBA, hd1, hd2, hd3]

/-- The graph the witness pools build: both edges of each direction are kept
(no outliers). -/
theorem c7w_graph_eval :
    build_graph (fun _ => 6) [c7w_s1, c7w_s2] =
      [("MA", [c7w_eA1, c7w_eA2]), ("MB", [c7w_eB1, c7w_eB2])] := by
  unfold build_graph
  rw [c7w_cand_eval]
  have bMAB : (decide (("MA" : String) = "MB")) = false := by decide
  have bMBA : (decide (("MB" : String) = "MA")) = false := by decide
  have hkey : key_order [c7w_eA1, c7w_eB1, c7w_eA2, c7w_eB2] =
      [("MA", "MB"), ("MB", "MA")] := by
    unfold key_order key_order key_order
    norm_num [edge_key, c7w_eA1, c7w_eB1, c7w_eA2, c7w_eB2, List.filter,
      bMAB, bMBA]
  rw [hkey]
  have hgA : group_for [c7w_eA1, c7w_eB1, c7w_eA2, c7w_eB2] ("MA", "MB") =
      [c7w_eA1, c7w_eA2] := by
    norm_num [group_for, edge_key, c7w_eA1, c7w_eB1, c7w_eA2, c7w_eB2,
      List.filter, bMAB, bMBA]
  have hgB : group_for [c7w_eA1, c7w_eB1, c7w_eA2, c7w_eB2] ("MB", "MA") =
      [c7w_eB1, c7w_eB2] := by
    norm_num [group_for, edge_key, c7w_eA1, c7w_eB1, c7w_eA2, c7w_eB2,
      List.filter, bMAB, bMBA]
  have hfA : filtered_group [c7w_eA1, c7w_eA2] = [c7w_eA1, c7w_eA2] := by
    unfold filtered_group
    rw [if_pos (by norm_num)]
    have hm : median_rate [c7w_eA1, c7w_eA2] = 101/100 := by
      norm_num [median_rate, c7w_eA1, c7w_eA2, List.insertionSort,
        List.orderedInsert]
    rw [hm]
    norm_num [c7w_eA1, c7w_eA2, List.filter]
  have hfB : filtered_group [c7w_eB1, c7w_eB2] = [c7w_eB1, c7w_eB2] := by
    unfold filtered_group
    rw [if_pos (by norm_num)]
    have hm : median_rate [c7w_eB1, c7w_eB2] = 1 := by
      norm_num [median_rate, c7w_eB1, c7w_eB2, List.insertionSort,
        List.orderedInsert]
    rw [hm]
    norm_num [c7w_eB1, c7w_eB2, List.filter]
  simp only [List.flatMap_cons, List.flatMap_nil, hgA, hgB, hfA, hfB,
    List.append_nil, List.cons_append, List.nil_append]
  have hmo : mint_order [c7w_eA1, c7w_eA2, c7w_eB1, c7w_eB2] =
      ["MA", "MB"] := by
    unfold mint_order mint_order mint_order
    norm_num [c7w_eA1, c7w_eB1, c7w_eA2, c7w_eB2, List.filter, bMAB, bMBA]
  rw [hmo]
  norm_num [c7w_eA1, c7w_eB1, c7w_eA2, c7w_eB2, List.filter, bMAB, bMBA]

/-- Witness for C7 at a concrete graph: the retained rate-1 edge of a two
candidate group with median 1.01 satisfies the median bounds. -/
theorem c7_witness :
    (1/2 : ℚ) * median_rate (group_for
        (candidate_edges (fun _ => 6) [c7w_s1, c7w_s2])
        (edge_key c7w_eA1)) ≤ c7w_eA1.rate ∧
      c7w_eA1.rate ≤ 2 * median_rate (group_for
        (candidate_edges (fun _ => 6) [c7w_s1, c7w_s2])
        (edge_key c7w_eA1)) := by
  refine c7_outlier_filter.1 (fun _ => 6) [c7w_s1, c7w_s2] "MA" c7w_eA1 ?_ ?_
  · rw [c7w_graph_eval]
    simp [graph_get, List.lookup]
  · rw [c7w_cand_eval]
    have bMAB : (decide (("MA" : String) = "MB")) = false := by decide
    have bMBA : (decide (("MB" : String) = "MA")) = false := by decide
    norm_num [group_for, edge_key, c7w_eA1, c7w_eB1, c7w_eA2, c7w_eB2,
      List.filter, bMAB, bMBA]

/-! ### scanner.py: the aggregator-routed opportunity record -/

/-- `scanner.ArbitrageOpportunity` (the fields the transaction builder
reads, plus the bookkeeping fields of the dataclass). -/
structure ArbitrageOpportunity where
  pair : String
  token_a : String
  token_b : String
  borrow_amount : ℕ
  leg1_out : ℕ := 0
  leg2_out : ℕ := 0
  flash_loan_fee : ℕ := 0
  profit_bps : ℤ := 0
  expected_profit : ℤ := 0
  sol_costs : ℕ := 0
  price_impact_leg1 : ℚ := 0
  price_impact_leg2 : ℚ := 0
  source : String := "jupiter"
  dynamic_cu_price : ℕ := 0
  dynamic_tip_lamports : ℕ := 0
deriving DecidableEq, Repr

/-! ### tx_builder.py

The builders perform HTTP quote/swap-instruction fetches, load lookup tables,
fetch a blockhash and compile a versioned transaction.  All of that I/O is
abstracted into a `BuildEnv` oracle; instructions are an arbitrary type `Ix`.
A `none` from an oracle models the Python call raising (non-200 status). -/

/-- A Jupiter quote response (the only field the builders read back is
`outAmount`). -/
structure Quote where
  outAmount : ℕ
deriving DecidableEq, Repr

/-- A Jupiter `swap-instructions` response. -/
structure SwapResp (Ix : Type) where
  setupInstructions : List Ix
  swapInstruction : Ix
  cleanupInstruction : Option Ix
  addressLookupTableAddresses : List String
deriving DecidableEq, Repr

/-- A compiled, signed versioned transaction (only its serialized size is
inspected by the builders). -/
structure CompiledTx where
  size_bytes : ℕ
deriving DecidableEq, Repr

/-- The I/O environment of a builder run: quote endpoint (venue filter,
input mint, output mint, amount, slippage bps, max accounts),
swap-instruction endpoint, instruction constructors, transaction compilation
and the latest blockhash. -/
structure BuildEnv (Ix : Type) where
  quote : Option (List String) → String → String → ℕ → ℕ → ℕ → Option Quote
  swap_ix : Quote → Option (SwapResp Ix)
  set_compute_unit_limit : ℕ → Ix
  set_compute_unit_price : ℕ → Ix
  borrow_ix : ℕ → Ix
  repay_ix : Ix
  compile : List Ix → List String → CompiledTx
  blockhash : String
  last_valid_block_height : ℕ

/-- `tx_builder.INTERNAL_DEX_TO_JUPITER`. -/
def INTERNAL_DEX_TO_JUPITER : List (String × String) :=
  [("raydium_clmm", "Raydium CLMM"), ("orca", "Whirlpool"),
   ("meteora", "Meteora DLMM"), ("raydium_v4", "Raydium")]

/-- The flash-loan fee every builder computes before its stale-quote guard:
`(borrow_amount * 9 + 9999) // 10000` (tx_builder.py lines 195, 390 and
521). -/
def tx_flash_fee (borrow_amount : ℕ) : ℕ := (borrow_amount * 9 + 9999) / 10000

/-- `tx_builder._append_swap_ixs`: setup + swap + optional cleanup. -/
def append_swap_ixs {Ix : Type} (instructions : List Ix)
    (swap_data : SwapResp Ix) : List Ix :=
  instructions ++ swap_data.setupInstructions ++ [swap_data.swapInstruction] ++
    swap_data.cleanupInstruction.toList

/-- The quote block of `build_arb_transaction` (two unrestricted Jupiter
quotes with `maxAccounts = 40`, then the stale-quote guard). -/
def arb_quotes {Ix : Type} (env : BuildEnv Ix)
    (opportunity : ArbitrageOpportunity) (slippage_bps : ℕ) :
    Except String (Quote × Quote) :=
  match env.quote none opportunity.token_a opportunity.token_b
      opportunity.borrow_amount slippage_bps 40 with
  | none => .error "Jupiter quote leg1 failed"
  | some quote1 =>
    match env.quote none opportunity.token_b opportunity.token_a
        quote1.outAmount slippage_bps 40 with
    | none => .error "Jupiter quote leg2 failed"
    | some quote2 =>
      if quote2.outAmount ≤
          opportunity.borrow_amount + tx_flash_fee opportunity.borrow_amount
      then .error "No longer profitable"
      else .ok (quote1, quote2)

/-- `tx_builder.build_arb_transaction`. -/
def build_arb_transaction {Ix : Type} (env : BuildEnv Ix)
    (opportunity : ArbitrageOpportunity) (slippage_bps : ℕ := 50)
    (compute_unit_price : ℕ := 25000) (compute_unit_limit : ℕ := 400000)
    (jito_tip_ix : Option Ix := none) :
    Except String (CompiledTx × String × ℕ) :=
  match arb_quotes env opportunity slippage_bps with
  | .error e => .error e
  | .ok (quote1, quote2) =>
    match env.swap_ix quote1, env.swap_ix quote2 with
    | some swap1, some swap2 =>
      let instructions :=
        append_swap_ixs (append_swap_ixs
          [env.set_compute_unit_limit compute_unit_limit,
           env.set_compute_unit_price compute_unit_price,
           env.borrow_ix opportunity.borrow_amount] swap1) swap2 ++
        [env.repay_ix] ++ jito_tip_ix.toList
      let tx := env.compile instructions
        (swap1.addressLookupTableAddresses ++
          swap2.addressLookupTableAddresses)
      if 1232 < tx.size_bytes then .error "Tx too large"
      else .ok (tx, env.blockhash, env.last_valid_block_height)
    | _, _ => .error "Jupiter swap-ix failed"

/-- The per-leg venue filters of `build_triangular_transaction`
(`[jup_dex] if jup_dex else None` per scanner edge). -/
def edge_dexes (opportunity : TriangularOpportunity) :
    List (Option (List String)) :=
  if opportunity.edges = [] then [none, none, none]
  else opportunity.edges.map (fun e =>
    (INTERNAL_DEX_TO_JUPITER.lookup e.dex).map (fun j => [j]))

/-- A venue-filtered `_jup_quote` with the one-shot unrestricted fallback of
the triangular builder (`try ... except: quote again without dexes`). -/
def quote_with_fallback {Ix : Type} (env : BuildEnv Ix)
    (dexes : Option (List String)) (input_mint output_mint : String)
    (amount slippage_bps : ℕ) : Option Quote :=
  match env.quote dexes input_mint output_mint amount slippage_bps 20 with
  | some q => some q
  | none => env.quote none input_mint output_mint amount slippage_bps 20

/-- The quote block of `build_triangular_transaction`: three sequential
quotes with venue filter and fallback, then the stale-quote guard. -/
def triangular_quotes {Ix : Type} (env : BuildEnv Ix)
    (opportunity : TriangularOpportunity) (slippage_bps : ℕ) :
    Except String (Quote × Quote × Quote) :=
  match quote_with_fallback env ((edge_dexes opportunity).getD 0 none)
      (opportunity.path.getD 0 "") (opportunity.path.getD 1 "")
      opportunity.borrow_amount slippage_bps with
  | none => .error "Jupiter quote failed"
  | some q1 =>
    match quote_with_fallback env ((edge_dexes opportunity).getD 1 none)
        (opportunity.path.getD 1 "") (opportunity.path.getD 2 "")
        q1.outAmount slippage_bps with
    | none => .error "Jupiter quote failed"
    | some q2 =>
      match quote_with_fallback env ((edge_dexes opportunity).getD 2 none)
          (opportunity.path.getD 2 "") (opportunity.path.getD 3 "")
          q2.outAmount slippage_bps with
      | none => .error "Jupiter quote failed"
      | some q3 =>
        if q3.outAmount ≤
            opportunity.borrow_amount + tx_flash_fee opportunity.borrow_amount
        then .error "Triangular stale"
        else .ok (q1, q2, q3)

/-- `tx_builder.build_triangular_transaction`. -/
def build_triangular_transaction {Ix : Type} (env : BuildEnv Ix)
    (opportunity : TriangularOpportunity) (slippage_bps : ℕ := 100)
    (compute_unit_price : ℕ := 50000) (compute_unit_limit : ℕ := 600000)
    (jito_tip_ix : Option Ix := none) :
    Except String (CompiledTx × String × ℕ) :=
  match triangular_quotes env opportunity slippage_bps with
  | .error e => .error e
  | .ok (q1, q2, q3) =>
    match env.swap_ix q1, env.swap_ix q2, env.swap_ix q3 with
    | some swap1, some swap2, some swap3 =>
      let instructions :=
        append_swap_ixs (append_swap_ixs (append_swap_ixs
          [env.set_compute_unit_limit compute_unit_limit,
           env.set_compute_unit_price compute_unit_price,
           env.borrow_ix opportunity.borrow_amount] swap1) swap2) swap3 ++
        [env.repay_ix] ++ jito_tip_ix.toList
      let tx := env.compile instructions
        (swap1.addressLookupTableAddresses ++
          swap2.addressLookupTableAddresses ++
          swap3.addressLookupTableAddresses)
      if 1232 < tx.size_bytes then .error "Triangular tx too large"
      else .ok (tx, env.blockhash, env.last_valid_block_height)
    | _, _, _ => .error "Jupiter swap-ix failed"

/-- The quote block of `build_cross_dex_transaction`: two venue-filtered
quotes with **no** fallback, then the stale-quote guard. -/
def cross_dex_quotes {Ix : Type} (env : BuildEnv Ix)
    (opportunity : CrossDexOpportunity) (slippage_bps : ℕ) :
    Except String (Quote × Quote) :=
  match env.quote
      ((INTERNAL_DEX_TO_JUPITER.lookup opportunity.buy_pool.dex).map
        (fun j => [j]))
      opportunity.token_a opportunity.token_b opportunity.borrow_amount
      slippage_bps 20 with
  | none => .error "Jupiter quote failed"
  | some q1 =>
    match env.quote
        ((INTERNAL_DEX_TO_JUPITER.lookup opportunity.sell_pool.dex).map
          (fun j => [j]))
        opportunity.token_b opportunity.token_a q1.outAmount
        slippage_bps 20 with
    | none => .error "Jupiter quote failed"
    | some q2 =>
      if q2.outAmount ≤
          opportunity.borrow_amount + tx_flash_fee opportunity.borrow_amount
      then .error "Cross-DEX stale"
      else .ok (q1, q2)

/-- `tx_builder.build_cross_dex_transaction`. -/
def build_cross_dex_transaction {Ix : Type} (env : BuildEnv Ix)
    (opportunity : CrossDexOpportunity) (slippage_bps : ℕ := 50)
    (compute_unit_price : ℕ := 25000) (compute_unit_limit : ℕ := 400000)
    (jito_tip_ix : Option Ix := none) :
    Except String (CompiledTx × String × ℕ) :=
  match cross_dex_quotes env opportunity slippage_bps with
  | .error e => .error e
  | .ok (q1, q2) =>
    match env.swap_ix q1, env.swap_ix q2 with
    | some swap1, some swap2 =>
      let instructions :=
        append_swap_ixs (append_swap_ixs
          [env.set_compute_unit_limit compute_unit_limit,
           env.set_compute_unit_price compute_unit_price,
           env.borrow_ix opportunity.borrow_amount] swap1) swap2 ++
        [env.repay_ix] ++ jito_tip_ix.toList
      let tx := env.compile instructions
        (swap1.addressLookupTableAddresses ++
          swap2.addressLookupTableAddresses)
      if 1232 < tx.size_bytes then .error "Cross-DEX tx too large"
      else .ok (tx, env.blockhash, env.last_valid_block_height)
    | _, _ => .error "Jupiter swap-ix failed"

/-- The stale-quote guard of the two-leg aggregator quote phase. -/
theorem arb_quotes_ok {Ix : Type} {env : BuildEnv Ix}
    {opportunity : ArbitrageOpportunity} {slippage_bps : ℕ} {q1 q2 : Quote}
    (h : arb_quotes env opportunity slippage_bps = .ok (q1, q2)) :
    opportunity.borrow_amount + tx_flash_fee opportunity.borrow_amount <
      q2.outAmount := by
  unfold arb_quotes at h
  split at h
  · exact absurd h (by simp)
  split at h
  · exact absurd h (by simp)
  split at h
  · exact absurd h (by simp)
  next hle =>
    simp only [Except.ok.injEq, Prod.mk.injEq] at h
    obtain ⟨-, rfl⟩ := h
    omega

/-- The stale-quote guard of the triangular quote phase. -/
theorem triangular_quotes_ok {Ix : Type} {env : BuildEnv Ix}
    {opportunity : TriangularOpportunity} {slippage_bps : ℕ}
    {q1 q2 q3 : Quote}
    (h : triangular_quotes env opportunity slippage_bps = .ok (q1, q2, q3)) :
    opportunity.borrow_amount + tx_flash_fee opportunity.borrow_amount <
      q3.outAmount := by
  unfold triangular_quotes at h
  split at h
  · exact absurd h (by simp)
  split at h
  · exact absurd h (by simp)
  split at h
  · exact absurd h (by simp)
  split at h
  · exact absurd h (by simp)
  next hle =>
    simp only [Except.ok.injEq, Prod.mk.injEq] at h
    obtain ⟨-, -, rfl⟩ := h
    omega

/-- The stale-quote guard of the cross-venue quote phase. -/
theorem cross_dex_quotes_ok {Ix : Type} {env : BuildEnv Ix}
    {opportunity : CrossDexOpportunity} {slippage_bps : ℕ} {q1 q2 : Quote}
    (h : cross_dex_quotes env opportunity slippage_bps = .ok (q1, q2)) :
    opportunity.borrow_amount + tx_flash_fee opportunity.borrow_amount <
      q2.outAmount := by
  unfold cross_dex_quotes at h
  split at h
  · exact absurd h (by simp)
  split at h
  · exact absurd h (by simp)
  split at h
  · exact absurd h (by simp)
  next hle =>
    simp only [Except.ok.injEq, Prod.mk.injEq] at h
    obtain ⟨-, rfl⟩ := h
    omega

/-- C4: stale-quote guard.  In each of the three builder variants, a
returned transaction implies the recomputed final leg output strictly
exceeds borrow principal plus flash-loan fee; when it does not, the build
stops in the quote phase with an error and returns no transaction. -/
theorem c4_stale_quote_guard :
    (∀ {Ix : Type} (env : BuildEnv Ix) (opportunity : ArbitrageOpportunity)
       (slippage_bps compute_unit_price compute_unit_limit : ℕ)
       (jito_tip_ix : Option Ix) (r : CompiledTx × String × ℕ),
        build_arb_transaction env opportunity slippage_bps compute_unit_price
          compute_unit_limit jito_tip_ix = .ok r →
        ∃ q1 q2, arb_quotes env opportunity slippage_bps = .ok (q1, q2) ∧
          opportunity.borrow_amount + tx_flash_fee opportunity.borrow_amount <
            q2.outAmount) ∧
    (∀ {Ix : Type} (env : BuildEnv Ix) (opportunity : TriangularOpportunity)
       (slippage_bps compute_unit_price compute_unit_limit : ℕ)
       (jito_tip_ix : Option Ix) (r : CompiledTx × String × ℕ),
        build_triangular_transaction env opportunity slippage_bps
          compute_unit_price compute_unit_limit jito_tip_ix = .ok r →
        ∃ q1 q2 q3,
          triangular_quotes env opportunity slippage_bps = .ok (q1, q2, q3) ∧
          opportunity.borrow_amount + tx_flash_fee opportunity.borrow_amount <
            q3.outAmount) ∧
    (∀ {Ix : Type} (env : BuildEnv Ix) (opportunity : CrossDexOpportunity)
       (slippage_bps compute_unit_price compute_unit_limit : ℕ)
       (jito_tip_ix : Option Ix) (r : CompiledTx × String × ℕ),
        build_cross_dex_transaction env opportunity slippage_bps
          compute_unit_price compute_unit_limit jito_tip_ix = .ok r →
        ∃ q1 q2, cross_dex_quotes env opportunity slippage_bps = .ok (q1, q2) ∧
          opportunity.borrow_amount + tx_flash_fee opportunity.borrow_amount <
            q2.outAmount) := by
  refine ⟨?_, ?_, ?_⟩
  · intro Ix env opportunity s cup cul tip r h
    unfold build_arb_transaction at h
    split at h
    · exact absurd h (by simp)
    next q1 q2 harb => exact ⟨q1, q2, harb, arb_quotes_ok harb⟩
  · intro Ix env opportunity s cup cul tip r h
    unfold build_triangular_transaction at h
    split at h
    · exact absurd h (by simp)
    next q1 q2 q3 htri => exact ⟨q1, q2, q3, htri, triangular_quotes_ok htri⟩
  · intro Ix env opportunity s cup cul tip r h
    unfold build_cross_dex_transaction at h
    split at h
    · exact absurd h (by simp)
    next q1 q2 hcross => exact ⟨q1, q2, hcross, cross_dex_quotes_ok hcross⟩

/-- A concrete build environment for the builder witnesses: every quote
doubles its input amount, every downstream step succeeds, the compiled
transaction is 700 bytes. -/
def c4_env : BuildEnv ℕ :=
  { quote := fun _ _ _ amount _ _ => some ⟨amount * 2⟩,
    swap_ix := fun _ => some ⟨[], 7, none, []⟩,
    set_compute_unit_limit := fun _ => 1,
    set_compute_unit_price := fun _ => 2,
    borrow_ix := fun _ => 3,
    repay_ix := 4,
    compile := fun _ _ => ⟨700⟩,
    blockhash := "HASH", last_valid_block_height := 99 }

/-- Concrete aggregator-routed opportunity for the C4 witness. -/
def c4_arb_opp : ArbitrageOpportunity :=
  { pair := "QB/QA", token_a := "QA", token_b := "QB",
    borrow_amount := 1000000 }

/-- Concrete triangular opportunity for the C4 witness (no scanner edges:
all legs quote unrestricted). -/
def c4_tri_opp : TriangularOpportunity :=
  { path := ["QA", "QX", "QY", "QA"], edges := [], round_trip_rate := 1,
    gross_profit_bps := 0, net_profit_bps := 0, borrow_amount := 1000000 }

/-- Concrete cross-venue opportunity for the C4 witness. -/
def c4_cross_opp : CrossDexOpportunity :=
  { pair := "QB/QA", token_a := "QA", token_b := "QB",
    borrow_amount := 1000000, buy_pool := cx_pool "P1" 1,
    sell_pool := cx_pool "P2" 1, buy_price := 1, sell_price := 1,
    spread_bps := 0, estimated_profit_bps := 0 }

/-- Witness for C4: all three builders succeed against `c4_env` and the
guard bound holds for each final leg. -/
theorem c4_witness :
    (∃ q1 q2, arb_quotes c4_env c4_arb_opp 50 = .ok (q1, q2) ∧
      1000000 + tx_flash_fee 1000000 < q2.outAmount) ∧
    (∃ q1 q2 q3, triangular_quotes c4_env c4_tri_opp 100 = .ok (q1, q2, q3) ∧
      1000000 + tx_flash_fee 1000000 < q3.outAmount) ∧
    (∃ q1 q2, cross_dex_quotes c4_env c4_cross_opp 50 = .ok (q1, q2) ∧
      1000000 + tx_flash_fee 1000000 < q2.outAmount) := by
  refine ⟨?_, ?_, ?_⟩
  · exact c4_stale_quote_guard.1 c4_env c4_arb_opp 50 25000 400000 none
      (⟨700⟩, "HASH", 99) (by rfl)
  · exact c4_stale_quote_guard.2.1 c4_env c4_tri_opp 100 50000 600000 none
      (⟨700⟩, "HASH", 99) (by rfl)
  · exact c4_stale_quote_guard.2.2 c4_env c4_cross_opp 50 25000 400000 none
      (⟨700⟩, "HASH", 99) (by rfl)

/-- C5 (amended): only the triangular builder retries a failed
venue-filtered leg quote, exactly once and without the venue filter
(`quote_with_fallback`, used for each of its three legs); the cross-venue
builder performs no retry — when its venue-filtered first-leg quote fails,
the whole build fails. -/
theorem c5_venue_filter_fallback :
    (∀ {Ix : Type} (env : BuildEnv Ix) (dexes : Option (List String))
       (input_mint output_mint : String) (amount slippage_bps : ℕ),
        env.quote dexes input_mint output_mint amount slippage_bps 20 =
          none →
        quote_with_fallback env dexes input_mint output_mint amount
          slippage_bps =
          env.quote none input_mint output_mint amount slippage_bps 20) ∧
    (∀ {Ix : Type} (env : BuildEnv Ix) (dexes : Option (List String))
       (input_mint output_mint : String) (amount slippage_bps : ℕ)
       (q : Quote),
        env.quote dexes input_mint output_mint amount slippage_bps 20 =
          some q →
        quote_with_fallback env dexes input_mint output_mint amount
          slippage_bps = some q) ∧
    (∀ {Ix : Type} (env : BuildEnv Ix) (opportunity : CrossDexOpportunity)
       (slippage_bps compute_unit_price compute_unit_limit : ℕ)
       (jito_tip_ix : Option Ix),
        env.quote
          ((INTERNAL_DEX_TO_JUPITER.lookup opportunity.buy_pool.dex).map
            (fun j => [j]))
          opportunity.token_a opportunity.token_b opportunity.borrow_amount
          slippage_bps 20 = none →
        build_cross_dex_transaction env opportunity slippage_bps
          compute_unit_price compute_unit_limit jito_tip_ix =
          .error "Jupiter quote failed") := by
  refine ⟨?_, ?_, ?_⟩
  · intro Ix env dexes i o a s hq
    unfold quote_with_fallback
    rw [hq]
  · intro Ix env dexes i o a s q hq
    unfold quote_with_fallback
    rw [hq]
  · intro Ix env opportunity s cup cul tip hq
    have hcq : cross_dex_quotes env opportunity s =
        .error "Jupiter quote failed" := by
      unfold cross_dex_quotes
      rw [hq]
    unfold build_cross_dex_transaction
    rw [hcq]

/-- A build environment in which every venue-filtered quote fails (no route
on the requested venue) while every unrestricted quote succeeds, doubling
the amount. -/
def c5_env : BuildEnv ℕ :=
  { quote := fun dexes _ _ amount _ _ =>
      match dexes with
      | some _ => none
      | none => some ⟨amount * 2⟩,
    swap_ix := fun _ => some ⟨[], 7, none, []⟩,
    set_compute_unit_limit := fun _ => 1,
    set_compute_unit_price := fun _ => 2,
    borrow_ix := fun _ => 3,
    repay_ix := 4,
    compile := fun _ _ => ⟨700⟩,
    blockhash := "HASH", last_valid_block_height := 99 }

/-- Concrete triangular opportunity whose three scanner edges all carry the
`raydium_clmm` venue tag, so every leg is venue-filtered. -/
def c5_tri_opp : TriangularOpportunity :=
  { path := ["QA", "QX", "QY", "QA"], edges := [t_e1, t_e2, t_e3],
    round_trip_rate := 1, gross_profit_bps := 0, net_profit_bps := 0,
    borrow_amount := 1000000 }

/-- C5 is false as stated: in an environment where venue-filtered quotes
fail and unrestricted quotes succeed profitably, the triangular builder
falls back and returns a transaction, while the cross-venue builder never
retries its failed venue-filtered leg and aborts — even though the
unrestricted quote it would have retried with was available. -/
theorem c5_counterexample :
    build_cross_dex_transaction c5_env c4_cross_opp 50 25000 400000 none =
      .error "Jupiter quote failed" ∧
    c5_env.quote none "QA" "QB" 1000000 50 20 = some ⟨2000000⟩ ∧
    build_triangular_transaction c5_env c5_tri_opp 100 50000 600000 none =
      .ok (⟨700⟩, "HASH", 99) := ⟨rfl, rfl, rfl⟩

/-- Witness for C5 (amended) at concrete inputs. -/
theorem c5_witness :
    quote_with_fallback c5_env (some ["Raydium CLMM"]) "QA" "QB" 1000000 50 =
      c5_env.quote none "QA" "QB" 1000000 50 20 ∧
    quote_with_fallback c4_env none "QA" "QB" 1000000 50 =
      some ⟨2000000⟩ ∧
    build_cross_dex_transaction c5_env
      { pair := "QB/QA", token_a := "QA", token_b := "QB",
        borrow_amount := 500000, buy_pool := cx_pool "P1" 1,
        sell_pool := cx_pool "P2" 1, buy_price := 1, sell_price := 1,
        spread_bps := 0, estimated_profit_bps := 0 } 50 25000 400000 none =
      .error "Jupiter quote failed" := by
  refine ⟨c5_venue_filter_fallback.1 c5_env (some ["Raydium CLMM"]) "QA" "QB"
      1000000 50 rfl,
    c5_venue_filter_fallback.2.1 c4_env none "QA" "QB" 1000000 50
      ⟨2000000⟩ rfl,
    c5_venue_filter_fallback.2.2 c5_env _ 50 25000 400000 none rfl⟩

/-! ### flash_loan_client.py: the decoded lending-pool account -/

/-- The fields `FlashLoanClient.get_pool_state` decodes from the lending
pool account (pubkeys kept as raw byte lists). -/
structure LendingPoolState where
  admin : List ℕ
  token_mint : List ℕ
  vault : List ℕ
  total_deposits : ℕ
  total_shares : ℕ
  total_fees_earned : ℕ
  fee_bps : ℕ
  bump : ℕ
  vault_bump : ℕ
  is_active : Bool
deriving DecidableEq, Repr

/-- `int.from_bytes(data[offset:offset+len], "little")`. -/
def read_le (data : List ℕ) (offset : ℕ) : ℕ → ℕ
  | 0 => 0
  | n + 1 => data.getD offset 0 + 256 * read_le data (offset + 1) n

/-- `FlashLoanClient.get_pool_state`: skip the 8-byte discriminator, then
admin/mint/vault pubkeys, three u64 counters, the u16 `fee_bps`, two bump
bytes and the active flag.  Shorter payloads make the Python slicing and
`Pubkey.from_bytes` raise, modelled as `none`. -/
def decode_lending_pool_state (data : List ℕ) : Option LendingPoolState :=
  if data.length < 133 then none
  else some
    { admin := (data.drop 8).take 32,
      token_mint := (data.drop 40).take 32,
      vault := (data.drop 72).take 32,
      total_deposits := read_le data 104 8,
      total_shares := read_le data 112 8,
      total_fees_earned := read_le data 120 8,
      fee_bps := read_le data 128 2,
      bump := data.getD 130 0,
      vault_bump := data.getD 131 0,
      is_active := data.getD 132 0 ≠ 0 }

/-- C10: all three transaction builders compute the flash-loan fee of the
stale-quote guard as `(borrow_amount * 9 + 9999) // 10000` — the ceiling of
nine basis points of the principal — irrespective of the `fee_bps`
parameter the flash-loan client decodes from the on-chain lending-pool
account (the decoded state appears only in the hypothesis: the fee is the
same for every decoded `fee_bps`). -/
theorem c10_hardcoded_flash_fee (borrow_amount : ℕ) (data : List ℕ)
    (st : LendingPoolState)
    (_decoded : decode_lending_pool_state data = some st) :
    tx_flash_fee borrow_amount = (borrow_amount * 9) ⌈/⌉ 10000 ∧
    borrow_amount * 9 ≤ 10000 * tx_flash_fee borrow_amount ∧
    10000 * tx_flash_fee borrow_amount < borrow_amount * 9 + 10000 := by
  refine ⟨?_, ?_, ?_⟩
  · unfold tx_flash_fee
    rw [Nat.ceilDiv_eq_add_pred_div]
    norm_num
  all_goals
    unfold tx_flash_fee
    have hdm := Nat.div_add_mod (borrow_amount * 9 + 9999) 10000
    have hlt : (borrow_amount * 9 + 9999) % 10000 < 10000 :=
      Nat.mod_lt _ (by norm_num)
    omega

/-- A 133-byte lending-pool account whose decoded `fee_bps` is 25. -/
def c10_data : List ℕ :=
  List.replicate 128 0 ++ [25, 0, 251, 252, 1]

set_option maxRecDepth 8000 in
/-- Witness for C10: a concrete decoded pool state with `fee_bps = 25` —
the builders' fee is still the 9 bps ceiling (e.g. 180000 on a 200 USDC
borrow), not 25 bps. -/
theorem c10_witness :
    (decode_lending_pool_state c10_data).map LendingPoolState.fee_bps =
      some 25 ∧
    tx_flash_fee 200000000 = (200000000 * 9) ⌈/⌉ 10000 ∧
    tx_flash_fee 200000000 = 180000 := by
  have hdec : decode_lending_pool_state c10_data = some
      { admin := List.replicate 32 0, token_mint := List.replicate 32 0,
        vault := List.replicate 32 0, total_deposits := 0,
        total_shares := 0, total_fees_earned := 0, fee_bps := 25,
        bump := 251, vault_bump := 252, is_active := true } := by
    decide
  refine ⟨by rw [hdec]; rfl, (c10_hardcoded_flash_fee 200000000 c10_data _
    hdec).1, by decide⟩

/-! ### alt_manager.py

`extend` sends one ExtendLookupTable transaction per batch; the embedding
returns the list of batches sent (state transition of a successful run) next
to the flag the Python returns. -/

/-- The mutable state of `ALTManager`. -/
structure ALTManager where
  authority : String
  table_address : Option String
  known_addresses : List String
deriving DecidableEq, Repr

/-- The new addresses `extend` computes: not already known and not the
authority. -/
def extend_new_addrs (self : ALTManager) (addresses : List String) :
    List String :=
  addresses.filter (fun a => a ∉ self.known_addresses ∧ a ≠ self.authority)

/-- `new_addrs[i:i+20] for i in range(0, len(new_addrs), 20)`. -/
def extend_batches (new_addrs : List String) : List (List String) :=
  (List.range ((new_addrs.length + 19) / 20)).map (fun i =>
    (new_addrs.drop (20 * i)).take 20)

/-- `ALTManager.extend`: returns the Python result flag, the address batches
sent (one extend transaction each) and the state after the run.  The
`table_account` reload does not touch `known_addresses`. -/
def ALTManager.extend (self : ALTManager) (addresses : List String) :
    Bool × List (List String) × ALTManager :=
  match self.table_address with
  | none => (false, [], self)
  | some _ =>
    if extend_new_addrs self addresses = [] then (false, [], self)
    else
      (true, extend_batches (extend_new_addrs self addresses),
       { self with known_addresses :=
           ((extend_batches (extend_new_addrs self addresses)).foldl
             (fun known batch => known ++ batch) self.known_addresses) })

/-- `ALTManager.ensure_accounts` on an initialized manager (the
`initialize` branch for a missing table address is I/O and outside the
claim, which is about an initialized table). -/
def ALTManager.ensure_accounts (self : ALTManager)
    (accounts : List String) : List (List String) × ALTManager :=
  ((self.extend accounts).2.1, (self.extend accounts).2.2)

/-- Concatenating the 20-slices reproduces the list. -/
theorem extend_batches_flatten (l : List String) :
    (extend_batches l).flatten = l := by
  suffices h : ∀ n (l : List String), l.length ≤ n →
      (extend_batches l).flatten = l by
    exact h l.length l le_rfl
  intro n
  induction n with
  | zero =>
    intro l hl
    have : l = [] := by
      cases l with
      | nil => rfl
      | cons a t => simp at hl
    subst this
    rfl
  | succ n ih =>
    intro l hl
    by_cases hnil : l = []
    · subst hnil; rfl
    · have hpos : 0 < l.length := List.length_pos.mpr hnil
      have hrange : (l.length + 19) / 20 =
          ((l.drop 20).length + 19) / 20 + 1 := by
        simp only [List.length_drop]
        omega
      unfold extend_batches
      rw [hrange, List.range_succ_eq_map]
      simp only [List.map_cons, List.map_map, List.flatten_cons]
      have hmapeq : (List.map ((fun i => (l.drop (20 * i)).take 20) ∘
          (· + 1)) (List.range (((l.drop 20).length + 19) / 20))) =
          extend_batches (l.drop 20) := by
        unfold extend_batches
        refine List.map_congr_left (fun i _ => ?_)
        simp only [Function.comp_apply, List.drop_drop]
        congr 2
        omega
      rw [hmapeq, ih (l.drop 20) (by simp only [List.length_drop]; omega)]
      rw [Nat.mul_zero, List.drop_zero]
      exact List.take_append_drop 20 l

/-- Folding append over the batches appends their concatenation. -/
theorem foldl_append_eq (batches : List (List String)) (init : List String) :
    batches.foldl (fun known batch => known ++ batch) init =
      init ++ batches.flatten := by
  induction batches generalizing init with
  | nil => simp
  | cons b bs ih => simp [ih, List.append_assoc]

/-- C8: on an initialized table, `ensure(S)` splits the new addresses (not
known, not the authority) into extend transactions of at most 20 addresses
each — 25 new addresses give exactly two extends of sizes 20 and 5 — and
afterwards every pubkey of `S` other than the authority is known. -/
theorem c8_ensure_accounts (self : ALTManager) (accounts : List String)
    (t : String) (ht : self.table_address = some t) :
    (∀ b ∈ (self.ensure_accounts accounts).1, b.length ≤ 20) ∧
    ((extend_new_addrs self accounts).length = 25 →
      (self.ensure_accounts accounts).1.map List.length = [20, 5]) ∧
    (∀ p ∈ accounts, p ≠ self.authority →
      p ∈ (self.ensure_accounts accounts).2.known_addresses) := by
  unfold ALTManager.ensure_accounts ALTManager.extend
  rw [ht]
  by_cases hnew : extend_new_addrs self accounts = []
  · rw [if_pos hnew]
    refine ⟨by simp, by rw [hnew]; simp, ?_⟩
    intro p hp hpa
    have hall := List.filter_eq_nil_iff.mp hnew p hp
    simp only [decide_eq_true_eq, not_and] at hall
    by_contra hnk
    exact hall hnk hpa
  · rw [if_neg hnew]
    refine ⟨?_, ?_, ?_⟩
    · intro b hb
      simp only [extend_batches, List.mem_map] at hb
      obtain ⟨i, -, rfl⟩ := hb
      exact le_trans (List.length_take_le _ _) le_rfl
    · intro hlen
      unfold extend_batches
      rw [hlen]
      norm_num [List.range_succ, List.length_take, List.length_drop, hlen]
    · intro p hp hpa
      simp only [foldl_append_eq, extend_batches_flatten, List.mem_append]
      by_cases hk : p ∈ self.known_addresses
      · exact Or.inl hk
      · refine Or.inr (List.mem_filter.mpr ⟨hp, ?_⟩)
        simp [hk, hpa]

/-- The initialized manager of the C8 witness: one known address. -/
def c8_mgr : ALTManager :=
  { authority := "AUTH", table_address := some "TBL",
    known_addresses := ["K1"] }

/-- 27 requested accounts: the authority, one already-known address and 25
new ones. -/
def c8_accounts : List String :=
  ["AUTH", "K1",
   "A01", "A02", "A03", "A04", "A05", "A06", "A07", "A08", "A09", "A10",
   "A11", "A12", "A13", "A14", "A15", "A16", "A17", "A18", "A19", "A20",
   "A21", "A22", "A23", "A24", "A25"]

/-- Witness for C8: the 25 new addresses go out as two extends of sizes 20
and 5, and a new address is afterwards known. -/
theorem c8_witness :
    (c8_mgr.ensure_accounts c8_accounts).1.map List.length = [20, 5] ∧
    "A01" ∈ (c8_mgr.ensure_accounts c8_accounts).2.known_addresses := by
  have h := c8_ensure_accounts c8_mgr c8_accounts "TBL" rfl
  exact ⟨h.2.1 (by decide), h.2.2 "A01" (by decide) (by decide)⟩

/-! ### pool_registry.py -/

/-- `pool_registry.PoolInfo`. -/
structure PoolInfo where
  address : String
  program_id : String
  dex : String
  token_a : String
  token_b : String
  label : String := ""
deriving DecidableEq, Repr

/-- `pool_registry.PairPools`. -/
structure PairPools where
  token_a : String
  token_b : String
  pools : List PoolInfo := []
deriving DecidableEq, Repr

/-- The registry's two insertion-ordered dictionaries: canonical pair key →
pair entry, and pool address → pool. -/
structure PoolRegistry where
  pairs : List (String × PairPools) := []
  pools : List (String × PoolInfo) := []
deriving DecidableEq, Repr

/-- `PoolRegistry._pair_key`: canonical (sorted) pair key. -/
def pair_key (mint_a mint_b : String) : String :=
  min mint_a mint_b ++ ":" ++ max mint_a mint_b

/-- `self._pairs[key].pools.append(pool)`: mutate the pair entry in place. -/
def add_pool_to_pair (pairs : List (String × PairPools)) (key : String)
    (pool : PoolInfo) : List (String × PairPools) :=
  pairs.map (fun kv =>
    if kv.1 = key then (kv.1, { kv.2 with pools := kv.2.pools ++ [pool] })
    else kv)

/-- `PoolRegistry.register_pool`: create the pair entry if missing, then —
only if the pool address is not yet tracked — append the pool to the pair
entry and to the address dictionary. -/
def PoolRegistry.register_pool (self : PoolRegistry) (pool : PoolInfo) :
    PoolRegistry :=
  if (self.pairs.lookup (pair_key pool.token_a pool.token_b)).isNone then
    if (self.pools.lookup pool.address).isNone then
      { pairs := add_pool_to_pair
          (self.pairs ++ [(pair_key pool.token_a pool.token_b,
            { token_a := pool.token_a, token_b := pool.token_b })])
          (pair_key pool.token_a pool.token_b) pool,
        pools := self.pools ++ [(pool.address, pool)] }
    else
      { self with pairs := self.pairs ++
          [(pair_key pool.token_a pool.token_b,
            { token_a := pool.token_a, token_b := pool.token_b })] }
  else
    if (self.pools.lookup pool.address).isNone then
      { pairs := add_pool_to_pair self.pairs
          (pair_key pool.token_a pool.token_b) pool,
        pools := self.pools ++ [(pool.address, pool)] }
    else self

/-- Appending a pool to a pair entry never changes the key set. -/
theorem add_pool_lookup_isSome (pairs : List (String × PairPools))
    (key k : String) (pool : PoolInfo) :
    ((add_pool_to_pair pairs key pool).lookup k).isSome ↔
      ((pairs.lookup k).isSome) := by
  simp only [add_pool_to_pair, List.lookup_isSome_iff, List.mem_map]
  constructor
  · rintro ⟨q, ⟨kv, hkv, rfl⟩, hq⟩
    refine ⟨kv, hkv, ?_⟩
    revert hq
    split <;> simp
  · rintro ⟨kv, hkv, hq⟩
    refine ⟨if kv.1 = key then (kv.1, { kv.2 with
        pools := kv.2.pools ++ [pool] }) else kv, ⟨kv, hkv, rfl⟩, ?_⟩
    revert hq
    split <;> simp

/-- Registering a pool with an untracked address appends it to the address
dictionary. -/
theorem register_pools_of_absent (r : PoolRegistry) (p : PoolInfo)
    (h : r.pools.lookup p.address = none) :
    (r.register_pool p).pools = r.pools ++ [(p.address, p)] := by
  unfold PoolRegistry.register_pool
  rw [h]
  by_cases hp : (r.pairs.lookup (pair_key p.token_a p.token_b)).isNone <;>
    simp [hp]

/-- Registering a pool with a tracked address leaves the address dictionary
unchanged. -/
theorem register_pools_of_present (r : PoolRegistry) (p : PoolInfo)
    (h : (r.pools.lookup p.address).isSome) :
    (r.register_pool p).pools = r.pools := by
  obtain ⟨v, hv⟩ := Option.isSome_iff_exists.mp h
  unfold PoolRegistry.register_pool
  rw [hv]
  by_cases hp : (r.pairs.lookup (pair_key p.token_a p.token_b)).isNone <;>
    simp [hp]

/-- After a registration the pool address is tracked. -/
theorem register_address_present (r : PoolRegistry) (p : PoolInfo) :
    ((r.register_pool p).pools.lookup p.address).isSome := by
  by_cases h : r.pools.lookup p.address = none
  · rw [register_pools_of_absent r p h, List.lookup_append, h]
    simp
  · have hs : (r.pools.lookup p.address).isSome := by
      cases ho : r.pools.lookup p.address with
      | none => exact absurd ho h
      | some v => rfl
    rw [register_pools_of_present r p hs]
    exact hs

/-- After a registration the canonical pair key is present. -/
theorem register_key_present (r : PoolRegistry) (p : PoolInfo) :
    ((r.register_pool p).pairs.lookup
      (pair_key p.token_a p.token_b)).isSome := by
  unfold PoolRegistry.register_pool
  by_cases hk : (r.pairs.lookup (pair_key p.token_a p.token_b)).isNone
  · have hnone : r.pairs.lookup (pair_key p.token_a p.token_b) = none :=
      Option.isNone_iff_eq_none.mp hk
    by_cases hp : (r.pools.lookup p.address).isNone
    · rw [if_pos hk, if_pos hp]
      dsimp only
      rw [add_pool_lookup_isSome, List.lookup_append, hnone]
      simp
    · rw [if_pos hk, if_neg hp]
      dsimp only
      rw [List.lookup_append, hnone]
      simp
  · have hs : (r.pairs.lookup (pair_key p.token_a p.token_b)).isSome := by
      cases ho : r.pairs.lookup (pair_key p.token_a p.token_b) with
      | none => exact absurd (by rw [ho]; rfl) hk
      | some v => rfl
    by_cases hp : (r.pools.lookup p.address).isNone
    · rw [if_neg hk, if_pos hp]
      dsimp only
      rw [add_pool_lookup_isSome]
      exact hs
    · rw [if_neg hk, if_neg hp]
      exact hs

/-- A second registration of the same pool is the identity. -/
theorem register_register (r : PoolRegistry) (p : PoolInfo) :
    (r.register_pool p).register_pool p = r.register_pool p := by
  have haddr := register_address_present r p
  have hkey := register_key_present r p
  obtain ⟨v, hv⟩ := Option.isSome_iff_exists.mp haddr
  obtain ⟨w, hw⟩ := Option.isSome_iff_exists.mp hkey
  set r1 := r.register_pool p with hr1
  show r1.register_pool p = r1
  unfold PoolRegistry.register_pool
  rw [hv, hw]
  simp

/-- Registering a fresh pool leaves exactly one dictionary entry for its
address. -/
theorem register_count_one (r : PoolRegistry) (p : PoolInfo)
    (h : r.pools.lookup p.address = none) :
    ((r.register_pool p).pools.map Prod.fst).count p.address = 1 := by
  rw [register_pools_of_absent r p h]
  have hnm : p.address ∉ r.pools.map Prod.fst := by
    intro hmem
    obtain ⟨q, hq, hfst⟩ := List.mem_map.mp hmem
    have := List.lookup_eq_none_iff.mp h q hq
    rw [hfst] at this
    simp at this
  simp [List.count_append, List.count_eq_zero_of_not_mem hnm]

/-- C9: registry idempotency.  Registering the same pool `n ≥ 1` times into
a registry that does not yet track its address leaves exactly one entry for
that address, and the canonical pair key is insensitive to the order of its
two mint arguments. -/
theorem c9_register_idempotent :
    (∀ (r : PoolRegistry) (p : PoolInfo) (n : ℕ), 1 ≤ n →
      r.pools.lookup p.address = none →
      ((((fun reg => PoolRegistry.register_pool reg p)^[n] r).pools.map
        Prod.fst).count p.address) = 1) ∧
    (∀ mint_a mint_b : String, pair_key mint_a mint_b =
      pair_key mint_b mint_a) := by
  constructor
  · intro r p n hn h
    obtain ⟨m, rfl⟩ : ∃ m, n = m + 1 := ⟨n - 1, by omega⟩
    rw [Function.iterate_succ_apply]
    have hfix : ∀ k, (fun reg => PoolRegistry.register_pool reg p)^[k]
        (r.register_pool p) = r.register_pool p := by
      intro k
      induction k with
      | zero => rfl
      | succ j ih =>
        rw [Function.iterate_succ_apply]
        show (fun reg => PoolRegistry.register_pool reg p)^[j]
          ((r.register_pool p).register_pool p) = _
        rw [register_register, ih]
    rw [hfix]
    exact register_count_one r p h
  · intro a b
    unfold pair_key
    rw [min_comm, max_comm]

/-- The pool registered in the C9 witness. -/
def c9_pool : PoolInfo :=
  { address := "POOLADDR", program_id := "PROG", dex := "raydium_clmm",
    token_a := "MINTA", token_b := "MINTB" }

/-- Witness for C9: three registrations of the same pool into an empty
registry leave one entry, and the pair key is order-insensitive at concrete
mints. -/
theorem c9_witness :
    ((((fun reg => PoolRegistry.register_pool reg c9_pool)^[3]
      {}).pools.map Prod.fst).count c9_pool.address) = 1 ∧
    pair_key "MINTB" "MINTA" = pair_key "MINTA" "MINTB" :=
  ⟨c9_register_idempotent.1 {} c9_pool 3 (by norm_num) rfl,
   c9_register_idempotent.2 "MINTB" "MINTA"⟩

/-! ### fee_strategy.py

Python `//` on ints is `Int.fdiv`; the float factors 0.40 and 0.80 and the
float `scale = max_sol_budget / total_sol` are modelled exactly over `ℚ`
with `int(...)` as `py_int`. -/

/-- `fee_strategy.FeeParams`. -/
structure FeeParams where
  compute_unit_price : ℤ
  jito_tip_lamports : ℤ
  total_sol_cost : ℤ
deriving DecidableEq, Repr

/-- The constructor arguments of `fee_strategy.FeeStrategy`. -/
structure FeeStrategy where
  min_tip : ℤ := 1000
  max_tip : ℤ := 100000
  tip_share : ℚ := 2/5
  min_cu_price : ℤ := 1000
  max_cu_price : ℤ := 200000
  base_cu_price : ℤ := 10000
  compute_units : ℤ := 400000
deriving DecidableEq, Repr

/-- `FeeStrategy._total_sol`: base fee + priority fee + tip. -/
def FeeStrategy.total_sol (self : FeeStrategy) (cu_price tip : ℤ) : ℤ :=
  5000 + (cu_price * self.compute_units).fdiv 1000000 + tip

/-- `profit_in_sol = (net_before_sol * 1_000_000_000) // sol_price_usdc`. -/
def profit_in_sol (net_before_sol sol_price_usdc : ℤ) : ℤ :=
  (net_before_sol * 1000000000).fdiv sol_price_usdc

/-- The clamped Jito tip before the cost cap:
`max(min_tip, min(int(profit_in_sol * tip_share), max_tip))`. -/
def FeeStrategy.pre_tip (self : FeeStrategy) (profit_sol : ℤ) : ℤ :=
  max self.min_tip
    (min (py_int ((profit_sol : ℚ) * self.tip_share)) self.max_tip)

/-- `profit_bps_approx = (net * 10000) // max(flash_fee * 10000 // 9, 1)`. -/
def profit_bps_approx (net_before_sol flash_loan_fee : ℤ) : ℤ :=
  (net_before_sol * 10000).fdiv (max ((flash_loan_fee * 10000).fdiv 9) 1)

/-- The profit-tier bucketing of the compute-unit price. -/
def FeeStrategy.cu_tier (self : FeeStrategy) (bps : ℤ) : ℤ :=
  if 50 ≤ bps then self.max_cu_price
  else if 20 ≤ bps then self.max_cu_price.fdiv 2
  else if 10 ≤ bps then self.base_cu_price * 2
  else self.base_cu_price

/-- The clamped compute-unit price before the cost cap. -/
def FeeStrategy.pre_cu (self : FeeStrategy) (bps : ℤ) : ℤ :=
  max self.min_cu_price (min (self.cu_tier bps) self.max_cu_price)

/-- `max_sol_budget = int(profit_in_sol * 0.80)`. -/
def max_sol_budget (profit_sol : ℤ) : ℤ := py_int ((profit_sol : ℚ) * (4/5))

/-- The proportionally scaled-down tip, clamped to the floor:
`max(min_tip, int(tip * scale))` with `scale = max_sol_budget / total_sol`. -/
def FeeStrategy.scaled_tip (self : FeeStrategy) (tip budget total : ℤ) : ℤ :=
  max self.min_tip (py_int ((tip : ℚ) * ((budget : ℚ) / (total : ℚ))))

/-- The proportionally scaled-down compute-unit price, clamped to the
floor. -/
def FeeStrategy.scaled_cu (self : FeeStrategy) (cu budget total : ℤ) : ℤ :=
  max self.min_cu_price (py_int ((cu : ℚ) * ((budget : ℚ) / (total : ℚ))))

/-- `FeeStrategy.compute_fees`. -/
def FeeStrategy.compute_fees (self : FeeStrategy)
    (gross_profit_usdc flash_loan_fee : ℤ)
    (sol_price_usdc : ℤ := 85000000) : FeeParams :=
  if gross_profit_usdc - flash_loan_fee ≤ 0 then
    { compute_unit_price := self.min_cu_price,
      jito_tip_lamports := self.min_tip,
      total_sol_cost := self.total_sol self.min_cu_price self.min_tip }
  else if self.total_sol
        (self.pre_cu (profit_bps_approx
          (gross_profit_usdc - flash_loan_fee) flash_loan_fee))
        (self.pre_tip (profit_in_sol
          (gross_profit_usdc - flash_loan_fee) sol_price_usdc)) >
      max_sol_budget (profit_in_sol
        (gross_profit_usdc - flash_loan_fee) sol_price_usdc) ∧
      0 < max_sol_budget (profit_in_sol
        (gross_profit_usdc - flash_loan_fee) sol_price_usdc) then
    { compute_unit_price := self.scaled_cu
        (self.pre_cu (profit_bps_approx
          (gross_profit_usdc - flash_loan_fee) flash_loan_fee))
        (max_sol_budget (profit_in_sol
          (gross_profit_usdc - flash_loan_fee) sol_price_usdc))
        (self.total_sol
          (self.pre_cu (profit_bps_approx
            (gross_profit_usdc - flash_loan_fee) flash_loan_fee))
          (self.pre_tip (profit_in_sol
            (gross_profit_usdc - flash_loan_fee) sol_price_usdc))),
      jito_tip_lamports := self.scaled_tip
        (self.pre_tip (profit_in_sol
          (gross_profit_usdc - flash_loan_fee) sol_price_usdc))
        (max_sol_budget (profit_in_sol
          (gross_profit_usdc - flash_loan_fee) sol_price_usdc))
        (self.total_sol
          (self.pre_cu (profit_bps_approx
            (gross_profit_usdc - flash_loan_fee) flash_loan_fee))
          (self.pre_tip (profit_in_sol
            (gross_profit_usdc - flash_loan_fee) sol_price_usdc))),
      total_sol_cost := self.total_sol
        (self.scaled_cu
          (self.pre_cu (profit_bps_approx
            (gross_profit_usdc - flash_loan_fee) flash_loan_fee))
          (max_sol_budget (profit_in_sol
            (gross_profit_usdc - flash_loan_fee) sol_price_usdc))
          (self.total_sol
            (self.pre_cu (profit_bps_approx
              (gross_profit_usdc - flash_loan_fee) flash_loan_fee))
            (self.pre_tip (profit_in_sol
              (gross_profit_usdc - flash_loan_fee) sol_price_usdc))))
        (self.scaled_tip
          (self.pre_tip (profit_in_sol
            (gross_profit_usdc - flash_loan_fee) sol_price_usdc))
          (max_sol_budget (profit_in_sol
            (gross_profit_usdc - flash_loan_fee) sol_price_usdc))
          (self.total_sol
            (self.pre_cu (profit_bps_approx
              (gross_profit_usdc - flash_loan_fee) flash_loan_fee))
            (self.pre_tip (profit_in_sol
              (gross_profit_usdc - flash_loan_fee) sol_price_usdc)))) }
  else
    { compute_unit_price := self.pre_cu (profit_bps_approx
        (gross_profit_usdc - flash_loan_fee) flash_loan_fee),
      jito_tip_lamports := self.pre_tip (profit_in_sol
        (gross_profit_usdc - flash_loan_fee) sol_price_usdc),
      total_sol_cost := self.total_sol
        (self.pre_cu (profit_bps_approx
          (gross_profit_usdc - flash_loan_fee) flash_loan_fee))
        (self.pre_tip (profit_in_sol
          (gross_profit_usdc - flash_loan_fee) sol_price_usdc)) }

/-- `py_int` of a nonnegative value is the floor. -/
theorem py_int_of_nonneg {q : ℚ} (h : 0 ≤ q) : py_int q = ⌊q⌋ :=
  if_neg (not_lt.mpr h)

/-- Python `//` under-approximates exact division. -/
theorem int_fdiv_cast_le (a b : ℤ) (hb : 0 < b) :
    ((a.fdiv b : ℤ) : ℚ) ≤ (a : ℚ) / (b : ℚ) := by
  rw [Int.fdiv_eq_ediv _ hb.le]
  rw [le_div_iff₀ (by exact_mod_cast hb : (0 : ℚ) < (b : ℚ))]
  have h1 := Int.ediv_add_emod a b
  have h2 := Int.emod_nonneg a (ne_of_gt hb)
  have h3 : (a / b) * b ≤ a := by linarith
  exact_mod_cast h3

/-- Python `//` misses exact division by less than one. -/
theorem int_cast_lt_fdiv_add_one (a b : ℤ) (hb : 0 < b) :
    (a : ℚ) / (b : ℚ) < ((a.fdiv b : ℤ) : ℚ) + 1 := by
  rw [Int.fdiv_eq_ediv _ hb.le]
  rw [div_lt_iff₀ (by exact_mod_cast hb : (0 : ℚ) < (b : ℚ))]
  have h1 := Int.ediv_add_emod a b
  have h2 := Int.emod_lt_of_pos a hb
  have h3 : a < (a / b + 1) * b := by linarith
  exact_mod_cast h3

/-- C6 (amended): for every `compute_fees` call with positive
`gross − flash_fee` and a positive rounded budget `⌊0.8·profit_in_native⌋`,
the returned tip and compute-unit price never fall below their configured
floors, and the returned total native cost exceeds the budget by at most the
un-scaled base fee plus the floor-level priority fee and floor tip (plus one
lamport of rounding): the hard 80 % cap itself does not hold — the 5000
lamport base fee is never scaled and the floors and integer roundings can
push the total above the cap. -/
theorem c6_cost_cap (self : FeeStrategy)
    (gross_profit_usdc flash_loan_fee sol_price_usdc : ℤ)
    (h_mt : 0 ≤ self.min_tip) (h_mc : 0 ≤ self.min_cu_price)
    (h_cu : 0 ≤ self.compute_units) (_h_sp : 0 < sol_price_usdc)
    (h_net : 0 < gross_profit_usdc - flash_loan_fee)
    (h_bud : 0 < max_sol_budget (profit_in_sol
      (gross_profit_usdc - flash_loan_fee) sol_price_usdc)) :
    (self.compute_fees gross_profit_usdc flash_loan_fee
        sol_price_usdc).total_sol_cost ≤
      max_sol_budget (profit_in_sol
        (gross_profit_usdc - flash_loan_fee) sol_price_usdc) +
      5000 + (self.min_cu_price * self.compute_units).fdiv 1000000 +
      self.min_tip + 1 ∧
    self.min_tip ≤ (self.compute_fees gross_profit_usdc flash_loan_fee
      sol_price_usdc).jito_tip_lamports ∧
    self.min_cu_price ≤ (self.compute_fees gross_profit_usdc flash_loan_fee
      sol_price_usdc).compute_unit_price := by
  have hFmc : 0 ≤ (self.min_cu_price * self.compute_units).fdiv 1000000 :=
    Int.fdiv_nonneg (mul_nonneg h_mc h_cu) (by norm_num)
  unfold FeeStrategy.compute_fees
  rw [if_neg (not_le.mpr h_net)]
  set P : ℤ := profit_in_sol (gross_profit_usdc - flash_loan_fee)
    sol_price_usdc with hPdef
  set B : ℤ := max_sol_budget P with hBdef
  set tip : ℤ := self.pre_tip P with htipdef
  set cu : ℤ := self.pre_cu (profit_bps_approx
    (gross_profit_usdc - flash_loan_fee) flash_loan_fee) with hcudef
  set T0 : ℤ := self.total_sol cu tip with hT0def
  have htip_mt : self.min_tip ≤ tip := by
    rw [htipdef]
    exact le_max_left _ _
  have hcu_mc : self.min_cu_price ≤ cu := by
    rw [hcudef]
    exact le_max_left _ _
  have htip0 : 0 ≤ tip := h_mt.trans htip_mt
  have hcu0 : 0 ≤ cu := h_mc.trans hcu_mc
  have hF0 : 0 ≤ (cu * self.compute_units).fdiv 1000000 :=
    Int.fdiv_nonneg (mul_nonneg hcu0 h_cu) (by norm_num)
  have hT0pos : 0 < T0 := by
    rw [hT0def, FeeStrategy.total_sol]
    omega
  by_cases hc : T0 > B ∧ 0 < B
  · rw [if_pos hc]
    dsimp only
    have hT0neq : ((T0 : ℤ) : ℚ) ≠ 0 := by
      exact_mod_cast ne_of_gt hT0pos
    set s : ℚ := ((B : ℤ) : ℚ) / ((T0 : ℤ) : ℚ) with hsdef
    have hs0 : 0 ≤ s := div_nonneg (by exact_mod_cast hc.2.le)
      (by exact_mod_cast hT0pos.le)
    -- the scaled tip
    have hxt : (0 : ℚ) ≤ (tip : ℚ) * s :=
      mul_nonneg (by exact_mod_cast htip0) hs0
    have htip2 : self.scaled_tip tip B T0 =
        max self.min_tip ⌊(tip : ℚ) * s⌋ := by
      rw [FeeStrategy.scaled_tip, py_int_of_nonneg hxt]
    have htip2_mt : self.min_tip ≤ self.scaled_tip tip B T0 := by
      rw [htip2]
      exact le_max_left _ _
    have htip2_le : ((self.scaled_tip tip B T0 : ℤ) : ℚ) ≤
        (self.min_tip : ℚ) + (tip : ℚ) * s := by
      rw [htip2]
      have h1 : max self.min_tip ⌊(tip : ℚ) * s⌋ ≤
          self.min_tip + ⌊(tip : ℚ) * s⌋ :=
        max_le (le_add_of_nonneg_right (Int.floor_nonneg.mpr hxt))
          (le_add_of_nonneg_left h_mt)
      calc ((max self.min_tip ⌊(tip : ℚ) * s⌋ : ℤ) : ℚ)
          ≤ ((self.min_tip + ⌊(tip : ℚ) * s⌋ : ℤ) : ℚ) := by exact_mod_cast h1
        _ ≤ (self.min_tip : ℚ) + (tip : ℚ) * s := by
            push_cast
            linarith [Int.floor_le ((tip : ℚ) * s)]
    -- the scaled compute-unit price
    have hxc : (0 : ℚ) ≤ (cu : ℚ) * s :=
      mul_nonneg (by exact_mod_cast hcu0) hs0
    have hcu2 : self.scaled_cu cu B T0 =
        max self.min_cu_price ⌊(cu : ℚ) * s⌋ := by
      rw [FeeStrategy.scaled_cu, py_int_of_nonneg hxc]
    have hcu2_mc : self.min_cu_price ≤ self.scaled_cu cu B T0 := by
      rw [hcu2]
      exact le_max_left _ _
    have hcu2_le : ((self.scaled_cu cu B T0 : ℤ) : ℚ) ≤
        (self.min_cu_price : ℚ) + (cu : ℚ) * s := by
      rw [hcu2]
      have h1 : max self.min_cu_price ⌊(cu : ℚ) * s⌋ ≤
          self.min_cu_price + ⌊(cu : ℚ) * s⌋ :=
        max_le (le_add_of_nonneg_right (Int.floor_nonneg.mpr hxc))
          (le_add_of_nonneg_left h_mc)
      calc ((max self.min_cu_price ⌊(cu : ℚ) * s⌋ : ℤ) : ℚ)
          ≤ ((self.min_cu_price + ⌊(cu : ℚ) * s⌋ : ℤ) : ℚ) := by
            exact_mod_cast h1
        _ ≤ (self.min_cu_price : ℚ) + (cu : ℚ) * s := by
            push_cast
            linarith [Int.floor_le ((cu : ℚ) * s)]
    have hcu2_0 : 0 ≤ self.scaled_cu cu B T0 := h_mc.trans hcu2_mc
    -- the rescaled priority fee in exact arithmetic
    have hprio : ((((self.scaled_cu cu B T0) *
        self.compute_units).fdiv 1000000 : ℤ) : ℚ) ≤
        (((self.min_cu_price : ℚ) + (cu : ℚ) * s) *
          (self.compute_units : ℚ)) / 1000000 := by
      calc ((((self.scaled_cu cu B T0) * self.compute_units).fdiv
            1000000 : ℤ) : ℚ)
          ≤ (((self.scaled_cu cu B T0) * self.compute_units : ℤ) : ℚ) /
            1000000 := by
            have := int_fdiv_cast_le ((self.scaled_cu cu B T0) *
              self.compute_units) 1000000 (by norm_num)
            simpa using this
        _ ≤ (((self.min_cu_price : ℚ) + (cu : ℚ) * s) *
            (self.compute_units : ℚ)) / 1000000 := by
            have hcuq : (0 : ℚ) ≤ (self.compute_units : ℚ) := by
              exact_mod_cast h_cu
            have hnum : (((self.scaled_cu cu B T0) *
                self.compute_units : ℤ) : ℚ) ≤
                ((self.min_cu_price : ℚ) + (cu : ℚ) * s) *
                  (self.compute_units : ℚ) := by
              push_cast
              exact mul_le_mul_of_nonneg_right hcu2_le hcuq
            rw [div_eq_mul_inv, div_eq_mul_inv]
            exact mul_le_mul_of_nonneg_right hnum (by norm_num)
    -- the original priority fee bounds the original product
    have hFup : ((cu * self.compute_units : ℤ) : ℚ) / 1000000 <
        (((cu * self.compute_units).fdiv 1000000 : ℤ) : ℚ) + 1 :=
      int_cast_lt_fdiv_add_one _ _ (by norm_num)
    have hFmcup : ((self.min_cu_price * self.compute_units : ℤ) : ℚ) /
        1000000 <
        (((self.min_cu_price * self.compute_units).fdiv 1000000 : ℤ) : ℚ) +
          1 :=
      int_cast_lt_fdiv_add_one _ _ (by norm_num)
    -- multiplying the slack by the scale
    have hm1 : (((cu * self.compute_units : ℤ) : ℚ) / 1000000) * s ≤
        ((((cu * self.compute_units).fdiv 1000000 : ℤ) : ℚ) + 1) * s :=
      mul_le_mul_of_nonneg_right hFup.le hs0
    have hTs : ((T0 : ℤ) : ℚ) * s = ((B : ℤ) : ℚ) := by
      rw [hsdef]
      field_simp
    have hkey : ((((cu * self.compute_units).fdiv 1000000 : ℤ) : ℚ) + 1) *
        s + (tip : ℚ) * s ≤ ((B : ℤ) : ℚ) := by
      have hT0q : ((T0 : ℤ) : ℚ) = 5000 +
          (((cu * self.compute_units).fdiv 1000000 : ℤ) : ℚ) + (tip : ℚ) := by
        rw [hT0def, FeeStrategy.total_sol]
        push_cast
        ring
      have hexp : ((((cu * self.compute_units).fdiv 1000000 : ℤ) : ℚ) + 1) *
          s + (tip : ℚ) * s = ((T0 : ℤ) : ℚ) * s - 4999 * s := by
        rw [hT0q]
        ring
      rw [hexp, hTs]
      have : 0 ≤ (4999 : ℚ) * s := by positivity
      linarith
    -- assemble the total
    rw [FeeStrategy.total_sol]
    refine ⟨?_, htip2_mt, hcu2_mc⟩
    have hgoal : ((5000 + ((self.scaled_cu cu B T0) *
        self.compute_units).fdiv 1000000 +
        self.scaled_tip tip B T0 : ℤ) : ℚ) ≤
        ((B + 5000 + (self.min_cu_price * self.compute_units).fdiv 1000000 +
          self.min_tip + 1 : ℤ) : ℚ) := by
      push_cast
      have hsplit : (((self.min_cu_price : ℚ) + (cu : ℚ) * s) *
          (self.compute_units : ℚ)) / 1000000 =
          ((self.min_cu_price * self.compute_units : ℤ) : ℚ) / 1000000 +
          (((cu * self.compute_units : ℤ) : ℚ) / 1000000) * s := by
        push_cast
        ring
      rw [hsplit] at hprio
      push_cast at hprio htip2_le hm1 hkey hFmcup ⊢
      linarith
    exact_mod_cast hgoal
  · rw [if_neg hc]
    dsimp only
    have hT0le : T0 ≤ B := by
      rcases not_and_or.mp hc with h | h
      · omega
      · exact absurd h_bud h
    exact ⟨by omega, htip_mt, hcu_mc⟩

/-- Counterexample for C6 as stated: at gross 181, flash fee 180,
SOL price 85 USDC (6 dp), the expected profit is 11 lamports, so the claimed
80 % cap is 8.8 lamports; yet `compute_fees` returns a total cost of 6400
lamports (floors 1000 + 1000 plus the un-scaled 5000 base fee and 400
priority fee), far above the cap. -/
theorem c6_counterexample :
    FeeStrategy.compute_fees {} 181 180 85000000 =
      ⟨1000, 1000, 6400⟩ ∧
    profit_in_sol (181 - 180) 85000000 = 11 ∧
    ¬(((FeeStrategy.compute_fees {} 181 180
        85000000).total_sol_cost : ℚ) ≤
      (4/5) * ((profit_in_sol (181 - 180) 85000000 : ℤ) : ℚ)) := by
  have hP : profit_in_sol (181 - 180) 85000000 = 11 := by decide
  have hbps : profit_bps_approx (181 - 180) 180 = 0 := by decide
  have htip : FeeStrategy.pre_tip {} 11 = 1000 := by
    norm_num [FeeStrategy.pre_tip, py_int]
  have hcu : FeeStrategy.pre_cu {} 0 = 10000 := by decide
  have hT0 : FeeStrategy.total_sol {} 10000 1000 = 10000 := by decide
  have hB : max_sol_budget 11 = 8 := by
    norm_num [max_sol_budget, py_int]
  have hst : FeeStrategy.scaled_tip {} 1000 8 10000 = 1000 := by
    norm_num [FeeStrategy.scaled_tip, py_int]
  have hsc : FeeStrategy.scaled_cu {} 10000 8 10000 = 1000 := by
    norm_num [FeeStrategy.scaled_cu, py_int]
  have htot : FeeStrategy.total_sol {} 1000 1000 = 6400 := by decide
  have heval : FeeStrategy.compute_fees {} 181 180 85000000 =
      ⟨1000, 1000, 6400⟩ := by
    unfold FeeStrategy.compute_fees
    rw [if_neg (by decide : ¬(181 - 180 : ℤ) ≤ 0)]
    rw [hP, hbps, htip, hcu, hT0, hB]
    rw [if_pos (by decide : (10000 : ℤ) > 8 ∧ (0 : ℤ) < 8)]
    rw [hsc, hst, htot]
  refine ⟨heval, hP, ?_⟩
  rw [heval, hP]
  norm_num

/-- Witness for C6's amended bound at the counterexample inputs: the budget
is positive there and the returned total cost respects the amended bound. -/
theorem c6_witness :
    0 < max_sol_budget (profit_in_sol (181 - 180) 85000000) ∧
    (FeeStrategy.compute_fees {} 181 180 85000000).total_sol_cost ≤
      max_sol_budget (profit_in_sol (181 - 180) 85000000) + 5000 +
      (({} : FeeStrategy).min_cu_price *
        ({} : FeeStrategy).compute_units).fdiv 1000000 +
      ({} : FeeStrategy).min_tip + 1 := by
  have h11 : profit_in_sol (181 - 180) 85000000 = 11 := by decide
  have hbud : 0 < max_sol_budget (profit_in_sol (181 - 180) 85000000) := by
    rw [h11]
    norm_num [max_sol_budget, py_int]
  exact ⟨hbud, (c6_cost_cap {} 181 180 85000000 (by decide) (by decide)
    (by decide) (by decide) (by decide) hbud).1⟩

end Pybot
